import Mathlib

/-!
# form3takehome — verification of the validation engine and envelope codec

Shallow embedding of the account-client library's core: the per-country
validation engine (`ValidateResource` and its helper checks) and the JSON
envelope codec (`marshalPayload`, `unmarshalPayload`, `unmarshalMultiPayload`).

The embedding follows the current revision of the validation code (the
helper-combinator version, the one the repository's test suite exercises).
Go `error` values built by chained `fmt.Errorf("...: %w", err)` wrapping are
modelled as a list of structured `Violation` values: the empty list is the
`nil` error, and each failing check conses the violation corresponding to its
format string onto the chain, outermost wrap first.  Go regular expressions
of the form `^\d{n}$` (and the bounded variants) are translated to decidable
predicates on strings.
-/

namespace Form3

/-- Account resource, from `resource.go`.  `Name` (`[4]string` in Go) and
`AlternativeNames` (`[3]string`) are fixed-size arrays, embedded as records
of four resp. three strings. -/
structure Name4 where
  n0 : String
  n1 : String
  n2 : String
  n3 : String
deriving DecidableEq

structure Name3 where
  a0 : String
  a1 : String
  a2 : String
deriving DecidableEq

structure Resource where
  Country : String
  BaseCurrency : String
  BankID : String
  BankIDCode : String
  AccountNumber : String
  BIC : String
  IBAN : String
  CustomerID : String
  Name : Name4
  AlternativeNames : Name3
  AccountClassification : String
  JointAccount : Bool
  AccountMatchingOptOut : Bool
  SecondaryIdentification : String
  Switched : Bool
  Status : String
deriving DecidableEq

/-- The zero value `Resource{}` of Go. -/
def resourceZero : Resource :=
  { Country := "", BaseCurrency := "", BankID := "", BankIDCode := ""
    AccountNumber := "", BIC := "", IBAN := "", CustomerID := ""
    Name := ⟨"", "", "", ""⟩, AlternativeNames := ⟨"", "", ""⟩
    AccountClassification := "", JointAccount := false
    AccountMatchingOptOut := false, SecondaryIdentification := ""
    Switched := false, Status := "" }

/-! ## Regular expression patterns

Each Go pattern `^\d{n}$` (match the whole string, exactly `n` ASCII digits)
becomes a decidable predicate; `\d` in Go's regexp is exactly `[0-9]`. -/

def isDigit (c : Char) : Bool := '0' ≤ c && c ≤ '9'

/-- `^\d{n}$` : exactly `n` characters, all ASCII digits. -/
def exactDigits (n : Nat) (s : String) : Bool :=
  s.length == n && s.toList.all isDigit

/-- `^\d{lo,hi}$` : between `lo` and `hi` characters, all ASCII digits. -/
def rangeDigits (lo hi : Nat) (s : String) : Bool :=
  lo ≤ s.length && s.length ≤ hi && s.toList.all isDigit

def reThreeDigits (s : String) : Bool := exactDigits 3 s
def reFiveDigits (s : String) : Bool := exactDigits 5 s
def reSixDigits (s : String) : Bool := exactDigits 6 s
def reSevenDigits (s : String) : Bool := exactDigits 7 s
def reEightDigits (s : String) : Bool := exactDigits 8 s
def reNineDigits (s : String) : Bool := exactDigits 9 s
def reTenDigits (s : String) : Bool := exactDigits 10 s
def reElevenDigits (s : String) : Bool := exactDigits 11 s
def reTwelveDigits (s : String) : Bool := exactDigits 12 s
def reThirteenDigits (s : String) : Bool := exactDigits 13 s
def reSixteenDigits (s : String) : Bool := exactDigits 16 s

/-- `^[1-9]\d{5,9}$` : first char 1–9, then 5–9 digits. -/
def reAUAccountNumber (s : String) : Bool :=
  match s.toList with
  | [] => false
  | c :: rest => '1' ≤ c && c ≤ '9' && (5 ≤ rest.length && rest.length ≤ 9)
      && rest.all isDigit

/-- `^0\d{8}$` : a leading zero followed by 8 digits. -/
def reCARoutingNumber (s : String) : Bool :=
  match s.toList with
  | [] => false
  | c :: rest => c == '0' && rest.length == 8 && rest.all isDigit

def reCAAccountNumber (s : String) : Bool := rangeDigits 7 12 s
def reHKAccountNumber (s : String) : Bool := rangeDigits 9 12 s
def reUSAccountNumber (s : String) : Bool := rangeDigits 6 17 s

/-! ## Errors

Each constructor corresponds to one `fmt.Errorf` format string in the
validation source; the wrap chain `fmt.Errorf("...: %w", e)` is a cons. -/

inductive Violation where
  /-- "BIC is required, was empty" (`bicRequired`) -/
  | bicMissing : Violation
  /-- "IBAN is not supported, got '%s'" (`ibanNotSupported`) -/
  | ibanPresent (iban : String) : Violation
  /-- "bank ID is not supported, has to be empty. Got '%s'" (`bankIDNotSupported`) -/
  | bankIDPresent (bankID : String) : Violation
  /-- "bank ID Code is not '%s', got %s" (`bankIDCodeMust`) -/
  | bankIDCodeWrong (want got : String) : Violation
  /-- "bank ID Code is not '%s', got '%s'" (`bankIDCodeOptionalMust`) -/
  | bankIDCodeOptionalWrong (want got : String) : Violation
  /-- "%s bank id is not in correct format. '%s'" (`bankIDRequiredMust` and
  `bankIDOptionalMust`) -/
  | bankIDFormat (country bankID : String) : Violation
  /-- "account number was provided, but not 12 numbers: '%s'" (`validateIT`) -/
  | itAccountNumberFormat (acct : String) : Violation
  /-- "%s account number is not in correct format. '%s'" (`accountNumberOptionalMust`) -/
  | accountNumberFormat (country acct : String) : Violation
  /-- "unsupported country code: %s" (`ValidateResource` fallthrough) -/
  | unsupportedCountry (country : String) : Violation
deriving DecidableEq

/-- A Go `error` as produced by the validation code: `[]` is the nil error,
and a failing check conses its violation onto the wrapped chain. -/
abbrev GoErr := List Violation

/-! ## Field-check helpers (from the validation source) -/

def bicRequired (r : Resource) (e : GoErr) : Resource × GoErr :=
  if r.BIC = "" then (r, .bicMissing :: e) else (r, e)

def ibanNotSupported (r : Resource) (e : GoErr) : Resource × GoErr :=
  if r.IBAN ≠ "" then (r, .ibanPresent r.IBAN :: e) else (r, e)

def bankIDNotSupported (r : Resource) (e : GoErr) : Resource × GoErr :=
  if r.BankID ≠ "" then (r, .bankIDPresent r.BankID :: e) else (r, e)

def bankIDCodeMust (r : Resource) (e : GoErr) (bankIDCode : String) :
    Resource × GoErr :=
  if r.BankIDCode ≠ bankIDCode then
    (r, .bankIDCodeWrong bankIDCode r.BankIDCode :: e)
  else (r, e)

def bankIDCodeOptionalMust (r : Resource) (e : GoErr) (bankIDCode : String) :
    Resource × GoErr :=
  if r.BankIDCode ≠ "" ∧ r.BankIDCode ≠ bankIDCode then
    (r, .bankIDCodeOptionalWrong bankIDCode r.BankIDCode :: e)
  else (r, e)

def bankIDRequiredMust (r : Resource) (e : GoErr) (pattern : String → Bool) :
    Resource × GoErr :=
  if ¬ pattern r.BankID then
    (r, .bankIDFormat r.Country r.BankID :: e)
  else (r, e)

def bankIDOptionalMust (r : Resource) (e : GoErr) (pattern : String → Bool) :
    Resource × GoErr :=
  if r.BankID ≠ "" ∧ ¬ pattern r.BankID then
    (r, .bankIDFormat r.Country r.BankID :: e)
  else (r, e)

def accountNumberOptionalMust (r : Resource) (e : GoErr) (pattern : String → Bool) :
    Resource × GoErr :=
  if r.AccountNumber ≠ "" ∧ ¬ pattern r.AccountNumber then
    (r, .accountNumberFormat r.Country r.AccountNumber :: e)
  else (r, e)

/-! ## Per-country validators -/

def validateGB (account : Resource) : GoErr :=
  let p1 := bicRequired account []
  let p2 := bankIDRequiredMust p1.1 p1.2 reSixDigits
  let p3 := bankIDCodeMust p2.1 p2.2 "GBDSC"
  (accountNumberOptionalMust p3.1 p3.2 reEightDigits).2

def validateAU (account : Resource) : GoErr :=
  let p0 := bicRequired account []
  let p1 := ibanNotSupported p0.1 p0.2
  let p2 := bankIDOptionalMust p1.1 p1.2 reSixDigits
  let p3 := bankIDCodeMust p2.1 p2.2 "AUBSB"
  (accountNumberOptionalMust p3.1 p3.2 reAUAccountNumber).2

def validateBE (account : Resource) : GoErr :=
  let p1 := bankIDRequiredMust account [] reThreeDigits
  let p2 := bankIDCodeMust p1.1 p1.2 "BE"
  (accountNumberOptionalMust p2.1 p2.2 reSevenDigits).2

def validateCA (account : Resource) : GoErr :=
  let p0 := bicRequired account []
  let p1 := ibanNotSupported p0.1 p0.2
  let p2 := bankIDOptionalMust p1.1 p1.2 reCARoutingNumber
  let p3 := bankIDCodeOptionalMust p2.1 p2.2 "CACPA"
  (accountNumberOptionalMust p3.1 p3.2 reCAAccountNumber).2

def validateFR (account : Resource) : GoErr :=
  let p1 := bankIDRequiredMust account [] reTenDigits
  let p2 := bankIDCodeMust p1.1 p1.2 "FR"
  (accountNumberOptionalMust p2.1 p2.2 reTenDigits).2

def validateDE (account : Resource) : GoErr :=
  let p1 := bankIDRequiredMust account [] reEightDigits
  let p2 := bankIDCodeMust p1.1 p1.2 "DEBLZ"
  (accountNumberOptionalMust p2.1 p2.2 reSevenDigits).2

def validateGR (account : Resource) : GoErr :=
  let p1 := bankIDRequiredMust account [] reSevenDigits
  let p2 := bankIDCodeMust p1.1 p1.2 "GRBIC"
  (accountNumberOptionalMust p2.1 p2.2 reSixteenDigits).2

def validateHK (account : Resource) : GoErr :=
  let p0 := bicRequired account []
  let p1 := ibanNotSupported p0.1 p0.2
  let p2 := bankIDOptionalMust p1.1 p1.2 reThreeDigits
  let p3 := bankIDCodeOptionalMust p2.1 p2.2 "HKNCC"
  (accountNumberOptionalMust p3.1 p3.2 reHKAccountNumber).2

def validateIT (account : Resource) : GoErr :=
  let accountPresent := account.AccountNumber ≠ ""
  let accErr : GoErr :=
    if account.AccountNumber ≠ "" ∧ ¬ reTwelveDigits account.AccountNumber then
      [.itAccountNumberFormat account.AccountNumber]
    else []
  let reAccount := if accountPresent then reElevenDigits else reTenDigits
  let p1 := bankIDRequiredMust account accErr reAccount
  (bankIDCodeMust p1.1 p1.2 "ITNCC").2

def validateLU (account : Resource) : GoErr :=
  let p1 := bankIDRequiredMust account [] reThreeDigits
  let p2 := bankIDCodeMust p1.1 p1.2 "LULUX"
  (accountNumberOptionalMust p2.1 p2.2 reThirteenDigits).2

def validateNL (account : Resource) : GoErr :=
  let p0 := bankIDNotSupported account []
  let p1 := bicRequired p0.1 p0.2
  let p2 := bankIDCodeMust p1.1 p1.2 ""
  (accountNumberOptionalMust p2.1 p2.2 reTenDigits).2

def validatePL (account : Resource) : GoErr :=
  let p1 := bankIDRequiredMust account [] reEightDigits
  let p2 := bankIDCodeMust p1.1 p1.2 "PLKNR"
  (accountNumberOptionalMust p2.1 p2.2 reSixteenDigits).2

def validatePT (account : Resource) : GoErr :=
  let p1 := bankIDRequiredMust account [] reEightDigits
  let p2 := bankIDCodeMust p1.1 p1.2 "PTNCC"
  (accountNumberOptionalMust p2.1 p2.2 reElevenDigits).2

def validateES (account : Resource) : GoErr :=
  let p1 := bankIDRequiredMust account [] reEightDigits
  let p2 := bankIDCodeMust p1.1 p1.2 "ESNCC"
  (accountNumberOptionalMust p2.1 p2.2 reTenDigits).2

def validateCH (account : Resource) : GoErr :=
  let p1 := bankIDRequiredMust account [] reFiveDigits
  let p2 := bankIDCodeMust p1.1 p1.2 "CHBCC"
  (accountNumberOptionalMust p2.1 p2.2 reTwelveDigits).2

def validateUS (account : Resource) : GoErr :=
  let p0 := bicRequired account []
  let p1 := ibanNotSupported p0.1 p0.2
  let p2 := accountNumberOptionalMust p1.1 p1.2 reUSAccountNumber
  let p3 := bankIDCodeMust p2.1 p2.2 "USABA"
  (bankIDRequiredMust p3.1 p3.2 reNineDigits).2

/-- The validation entry point: dispatch on the country code (the Go
`switch`), with the unsupported-country error on fallthrough. -/
def ValidateResource (account : Resource) : GoErr :=
  if account.Country = "GB" then validateGB account
  else if account.Country = "AU" then validateAU account
  else if account.Country = "BE" then validateBE account
  else if account.Country = "CA" then validateCA account
  else if account.Country = "FR" then validateFR account
  else if account.Country = "DE" then validateDE account
  else if account.Country = "GR" then validateGR account
  else if account.Country = "HK" then validateHK account
  else if account.Country = "IT" then validateIT account
  else if account.Country = "LU" then validateLU account
  else if account.Country = "NL" then validateNL account
  else if account.Country = "PL" then validatePL account
  else if account.Country = "PT" then validatePT account
  else if account.Country = "ES" then validateES account
  else if account.Country = "CH" then validateCH account
  else if account.Country = "US" then validateUS account
  else [.unsupportedCountry account.Country]

/-- The sixteen supported country codes. -/
def supportedCountries : List String :=
  ["GB", "AU", "BE", "CA", "FR", "DE", "GR", "HK",
   "IT", "LU", "NL", "PL", "PT", "ES", "CH", "US"]

/-! ## Envelope structs (from `resource.go`)

`time.Time` fields travel on the wire as their RFC 3339 string form and are
embedded as that string.  `MultiPayload.Data` is a Go slice `[]Data`, whose
`nil` / non-`nil` distinction the decoding code inspects, so it is embedded
as `Option (List Data)` with `none` for the nil slice. -/

structure Data where
  ID : String
  OrganisationID : String
  /-- the Go field `Type` (a reserved word here) -/
  Typ : String
  Version : Int
  CreatedOn : String
  ModifiedOn : String
  Attributes : Resource
deriving DecidableEq

structure Links where
  Self : String
  First : String
  Next : String
  Last : String
deriving DecidableEq

structure Payload where
  Data : Data
  Links : Links
deriving DecidableEq

structure MultiPayload where
  Data : Option (List Data)
  Links : Links
deriving DecidableEq

/-- The zero value `Data{}` of Go. -/
def dataZero : Data :=
  { ID := "", OrganisationID := "", Typ := "", Version := 0
    CreatedOn := "", ModifiedOn := "", Attributes := resourceZero }

/-- The zero value `Links{}` of Go. -/
def linksZero : Links := { Self := "", First := "", Next := "", Last := "" }

/-! ## JSON values

The byte-level rendering and parsing belong to the external `encoding/json`
library; the codec is modelled at the JSON-value level, with a malformed
byte stream represented as `Option.none` on the decoding side. -/

inductive Json where
  | str (s : String) : Json
  | num (n : Int) : Json
  | bool (b : Bool) : Json
  | null : Json
  | arr (elems : List Json) : Json
  | obj (fields : List (String × Json)) : Json



/-! ## Encoding (`marshalPayload`)

Faithful to `encoding/json` on the tagged structs of `resource.go`: fields
are rendered in declaration order; a field tagged `omitempty` is omitted
when its value is empty (`""`, `false`, or a zero-length array).  The
`alternative_names` field is tagged `omitempty` but has type `[3]string`,
a fixed-size array of length 3 — never empty — so `encoding/json` always
renders it, even when all three strings are `""`. -/

/-- Emit an `omitempty` string field. -/
def omitemptyStr (key s : String) : List (String × Json) :=
  if s = "" then [] else [(key, .str s)]

/-- Emit an `omitempty` bool field. -/
def omitemptyBool (key : String) (b : Bool) : List (String × Json) :=
  if b then [(key, .bool b)] else []

def encodeResource (r : Resource) : Json :=
  .obj ([("country", .str r.Country)]
    ++ omitemptyStr "base_currency" r.BaseCurrency
    ++ omitemptyStr "bank_id" r.BankID
    ++ omitemptyStr "bank_id_code" r.BankIDCode
    ++ omitemptyStr "account_number" r.AccountNumber
    ++ omitemptyStr "bic" r.BIC
    ++ omitemptyStr "iban" r.IBAN
    ++ omitemptyStr "customer_id" r.CustomerID
    ++ [("name", .arr [.str r.Name.n0, .str r.Name.n1, .str r.Name.n2, .str r.Name.n3])]
    ++ [("alternative_names",
          .arr [.str r.AlternativeNames.a0, .str r.AlternativeNames.a1,
                .str r.AlternativeNames.a2])]
    ++ omitemptyStr "account_classification" r.AccountClassification
    ++ omitemptyBool "joint_account" r.JointAccount
    ++ omitemptyBool "account_matching_opt_out" r.AccountMatchingOptOut
    ++ omitemptyStr "secondary_identification" r.SecondaryIdentification
    ++ omitemptyBool "switched" r.Switched
    ++ [("status", .str r.Status)])

def encodeData (d : Data) : Json :=
  .obj [("id", .str d.ID), ("organisation_id", .str d.OrganisationID),
    ("type", .str d.Typ), ("version", .num d.Version),
    ("created_on", .str d.CreatedOn), ("modified_on", .str d.ModifiedOn),
    ("attributes", encodeResource d.Attributes)]

/-- `Links` has `omitempty` on `first`, `next`, `last`; `self` is always
rendered. -/
def encodeLinks (l : Links) : Json :=
  .obj ([("self", .str l.Self)]
    ++ omitemptyStr "first" l.First
    ++ omitemptyStr "next" l.Next
    ++ omitemptyStr "last" l.Last)

/-- `marshalPayload` from `client.go`: render the payload deterministically.
`Payload.Links` is tagged `links,omitempty`, but `omitempty` never omits a
struct value, so both sections are always rendered. -/
def marshalPayload (p : Payload) : Json :=
  .obj [("data", encodeData p.Data), ("links", encodeLinks p.Links)]

/-! ## Decoding

`encoding/json` semantics for the shapes used here: an absent key or a JSON
`null` leaves the Go field at its zero value; a value of the wrong shape is
a decode error; when decoding into a fixed-size array, surplus elements are
discarded and missing trailing elements are zeroed.  Duplicate keys are
resolved last-wins, which the last-occurrence lookup below reproduces. -/

def lookupLast (fields : List (String × Json)) (key : String) : Option Json :=
  fields.foldl (fun acc kv => if kv.1 = key then some kv.2 else acc) none

def decodeString : Option Json → Except Unit String
  | none => .ok ""
  | some .null => .ok ""
  | some (.str s) => .ok s
  | some _ => .error ()

def decodeInt : Option Json → Except Unit Int
  | none => .ok 0
  | some .null => .ok 0
  | some (.num n) => .ok n
  | some _ => .error ()

def decodeBool : Option Json → Except Unit Bool
  | none => .ok false
  | some .null => .ok false
  | some (.bool b) => .ok b
  | some _ => .error ()

def decodeName4 : Option Json → Except Unit Name4
  | none => .ok ⟨"", "", "", ""⟩
  | some .null => .ok ⟨"", "", "", ""⟩
  | some (.arr l) => do
    let n0 ← decodeString (l.get? 0)
    let n1 ← decodeString (l.get? 1)
    let n2 ← decodeString (l.get? 2)
    let n3 ← decodeString (l.get? 3)
    .ok ⟨n0, n1, n2, n3⟩
  | some _ => .error ()

def decodeName3 : Option Json → Except Unit Name3
  | none => .ok ⟨"", "", ""⟩
  | some .null => .ok ⟨"", "", ""⟩
  | some (.arr l) => do
    let a0 ← decodeString (l.get? 0)
    let a1 ← decodeString (l.get? 1)
    let a2 ← decodeString (l.get? 2)
    .ok ⟨a0, a1, a2⟩
  | some _ => .error ()

def decodeResource : Option Json → Except Unit Resource
  | none => .ok resourceZero
  | some .null => .ok resourceZero
  | some (.obj fields) => do
    let country ← decodeString (lookupLast fields "country")
    let baseCurrency ← decodeString (lookupLast fields "base_currency")
    let bankID ← decodeString (lookupLast fields "bank_id")
    let bankIDCode ← decodeString (lookupLast fields "bank_id_code")
    let accountNumber ← decodeString (lookupLast fields "account_number")
    let bic ← decodeString (lookupLast fields "bic")
    let iban ← decodeString (lookupLast fields "iban")
    let customerID ← decodeString (lookupLast fields "customer_id")
    let name ← decodeName4 (lookupLast fields "name")
    let altNames ← decodeName3 (lookupLast fields "alternative_names")
    let classification ← decodeString (lookupLast fields "account_classification")
    let joint ← decodeBool (lookupLast fields "joint_account")
    let optOut ← decodeBool (lookupLast fields "account_matching_opt_out")
    let secondary ← decodeString (lookupLast fields "secondary_identification")
    let switched ← decodeBool (lookupLast fields "switched")
    let status ← decodeString (lookupLast fields "status")
    .ok { Country := country, BaseCurrency := baseCurrency, BankID := bankID
          BankIDCode := bankIDCode, AccountNumber := accountNumber, BIC := bic
          IBAN := iban, CustomerID := customerID, Name := name
          AlternativeNames := altNames, AccountClassification := classification
          JointAccount := joint, AccountMatchingOptOut := optOut
          SecondaryIdentification := secondary, Switched := switched
          Status := status }
  | some _ => .error ()

def decodeData : Option Json → Except Unit Data
  | none => .ok dataZero
  | some .null => .ok dataZero
  | some (.obj fields) => do
    let id ← decodeString (lookupLast fields "id")
    let orgID ← decodeString (lookupLast fields "organisation_id")
    let ty ← decodeString (lookupLast fields "type")
    let version ← decodeInt (lookupLast fields "version")
    let createdOn ← decodeString (lookupLast fields "created_on")
    let modifiedOn ← decodeString (lookupLast fields "modified_on")
    let attrs ← decodeResource (lookupLast fields "attributes")
    .ok { ID := id, OrganisationID := orgID, Typ := ty, Version := version
          CreatedOn := createdOn, ModifiedOn := modifiedOn, Attributes := attrs }
  | some _ => .error ()

def decodeLinks : Option Json → Except Unit Links
  | none => .ok linksZero
  | some .null => .ok linksZero
  | some (.obj fields) => do
    let self ← decodeString (lookupLast fields "self")
    let first ← decodeString (lookupLast fields "first")
    let next ← decodeString (lookupLast fields "next")
    let last ← decodeString (lookupLast fields "last")
    .ok { Self := self, First := first, Next := next, Last := last }
  | some _ => .error ()

/-- Decode a JSON value into a `Payload` struct (the `json.Decoder.Decode`
step of `unmarshalPayload`). -/
def decodePayloadJson : Json → Except Unit Payload
  | .null => .ok ⟨dataZero, linksZero⟩
  | .obj fields => do
    let data ← decodeData (lookupLast fields "data")
    let links ← decodeLinks (lookupLast fields "links")
    .ok ⟨data, links⟩
  | _ => .error ()

/-- Decode the `data` field of a `MultiPayload`: a Go `[]Data` slice, `nil`
when the key is absent or `null`. -/
def decodeDataSlice : Option Json → Except Unit (Option (List Data))
  | none => .ok none
  | some .null => .ok none
  | some (.arr elems) => do
    let ds ← elems.mapM (fun j => decodeData (some j))
    .ok (some ds)
  | some _ => .error ()

/-- Decode a JSON value into a `MultiPayload` struct. -/
def decodeMultiPayloadJson : Json → Except Unit MultiPayload
  | .null => .ok ⟨none, linksZero⟩
  | .obj fields => do
    let data ← decodeDataSlice (lookupLast fields "data")
    let links ← decodeLinks (lookupLast fields "links")
    .ok ⟨data, links⟩
  | _ => .error ()

/-! ## `unmarshalPayload` and `unmarshalMultiPayload` (from `client.go`) -/

inductive UnmarshalErr where
  /-- `"unmarshalPayload: %w"` / `"unmarshalMultiPayload: %w"` — the wrapped
  decoder error for a stream that does not decode. -/
  | malformed : UnmarshalErr
  /-- `"unmarshalPayload: Data is empty on the decoded Payload"` -/
  | dataEmpty : UnmarshalErr
  /-- `"unmarshalPayload: Data.Attributes is empty on the decoded Payload"` -/
  | attributesEmpty : UnmarshalErr
  /-- `"unmarshalMultiPayload: there is no Data on the decoded MultiPayload"` -/
  | noData : UnmarshalErr
  /-- `"unmarshalMultiPayload: Data structs are missing required fields"` -/
  | elementAttributesEmpty : UnmarshalErr
deriving DecidableEq

/-- The "incomplete payload" class of decode errors, as opposed to the
malformed-input class. -/
def UnmarshalErr.isIncomplete : UnmarshalErr → Bool
  | .malformed => false
  | _ => true

/-- `unmarshalPayload`: decode the stream (`none` = not well-formed text),
then reject a zero-valued `Data` section and a zero-valued `Attributes`
section as incomplete. -/
def unmarshalPayload : Option Json → Except UnmarshalErr Payload
  | none => .error .malformed
  | some j =>
    match decodePayloadJson j with
    | .error _ => .error .malformed
    | .ok p =>
      if p.Data = dataZero then .error .dataEmpty
      else if p.Data.Attributes = resourceZero then .error .attributesEmpty
      else .ok p

/-- `unmarshalMultiPayload`: decode the stream, reject a nil `Data` slice,
then reject the whole collection if any element's attributes are zero. -/
def unmarshalMultiPayload : Option Json → Except UnmarshalErr MultiPayload
  | none => .error .malformed
  | some j =>
    match decodeMultiPayloadJson j with
    | .error _ => .error .malformed
    | .ok mp =>
      match mp.Data with
      | none => .error .noData
      | some ds =>
        if ds.any (fun d => d.Attributes = resourceZero) then
          .error .elementAttributesEmpty
        else .ok mp

/-! ## Observers used in the statements -/

/-- Is this violation an account-number format complaint (either the generic
one or the Italy-specific one)? -/
def isAccountNumberViolation : Violation → Bool
  | .accountNumberFormat _ _ => true
  | .itAccountNumberFormat _ => true
  | _ => false

/-- Is this violation a bank-identifier format complaint? -/
def isBankIDFormatViolation : Violation → Bool
  | .bankIDFormat _ _ => true
  | _ => false

/-- Is this violation an optional bank-identifier-code mismatch complaint? -/
def isBankIDCodeOptionalViolation : Violation → Bool
  | .bankIDCodeOptionalWrong _ _ => true
  | _ => false

/-- The field list of a JSON object (empty for non-objects). -/
def Json.objFields : Json → List (String × Json)
  | .obj fields => fields
  | _ => []

/-- The keys of a rendered JSON object. -/
def Json.keys (j : Json) : List String := j.objFields.map (fun kv => kv.1)

/-- Drill into a rendered payload: the `attributes` object inside the `data`
object. -/
def attributesOf (j : Json) : Json :=
  match lookupLast j.objFields "data" with
  | some dj =>
    match lookupLast dj.objFields "attributes" with
    | some aj => aj
    | none => .null
  | none => .null


/-! ## Concrete inputs used by counterexamples and witnesses -/

/-- A payload whose attributes carry an entirely empty `alternative_names`
array. -/
def pAlt : Payload :=
  { Data :=
    { ID := "id1", OrganisationID := "org1", Typ := "accounts", Version := 0
      CreatedOn := "2020-05-06T09:28:13.843Z"
      ModifiedOn := "2020-05-06T09:28:13.843Z"
      Attributes := { resourceZero with Country := "GB", Status := "confirmed" } }
    Links := linksZero }

/-- A payload with every attribute field at a non-zero value. -/
def pFull : Payload :=
  { Data :=
    { ID := "a6c1a721", OrganisationID := "7442ea6b", Typ := "accounts"
      Version := 0
      CreatedOn := "2020-05-06T09:28:13.843Z"
      ModifiedOn := "2020-05-06T09:28:13.843Z"
      Attributes :=
      { Country := "GB", BaseCurrency := "GBP", BankID := "123456"
        BankIDCode := "GBDSC", AccountNumber := "12345678", BIC := "bic1234"
        IBAN := "iban1234", CustomerID := "cust1"
        Name := ⟨"line1", "line2", "line3", "line4"⟩
        AlternativeNames := ⟨"alt1", "alt2", "alt3"⟩
        AccountClassification := "cop", JointAccount := true
        AccountMatchingOptOut := true, SecondaryIdentification := "sec"
        Switched := true, Status := "confirmed" } }
    Links := { Self := "s", First := "f", Next := "n", Last := "l" } }

/-- All attribute fields at non-zero values: every string field non-empty,
every boolean flag set, each name line and alternative-name line non-empty. -/
def fullyPopulated (r : Resource) : Prop :=
  r.Country ≠ "" ∧ r.BaseCurrency ≠ "" ∧ r.BankID ≠ "" ∧ r.BankIDCode ≠ "" ∧
  r.AccountNumber ≠ "" ∧ r.BIC ≠ "" ∧ r.IBAN ≠ "" ∧ r.CustomerID ≠ "" ∧
  r.Name.n0 ≠ "" ∧ r.Name.n1 ≠ "" ∧ r.Name.n2 ≠ "" ∧ r.Name.n3 ≠ "" ∧
  r.AlternativeNames.a0 ≠ "" ∧ r.AlternativeNames.a1 ≠ "" ∧
  r.AlternativeNames.a2 ≠ "" ∧
  r.AccountClassification ≠ "" ∧ r.JointAccount = true ∧
  r.AccountMatchingOptOut = true ∧ r.SecondaryIdentification ≠ "" ∧
  r.Switched = true ∧ r.Status ≠ ""


/-! ## Closed forms for the validators

Each helper returns its argument record unchanged and appends (conses) its
violation exactly when its check fails; the lemmas below restate each
per-country validator as the concatenation of one independent segment per
field check, outermost wrap first. -/

theorem bicRequired_fst (r : Resource) (e : GoErr) : (bicRequired r e).1 = r := by
  unfold bicRequired; split <;> rfl

theorem ibanNotSupported_fst (r : Resource) (e : GoErr) : (ibanNotSupported r e).1 = r := by
  unfold ibanNotSupported; split <;> rfl

theorem bankIDNotSupported_fst (r : Resource) (e : GoErr) : (bankIDNotSupported r e).1 = r := by
  unfold bankIDNotSupported; split <;> rfl

theorem bankIDCodeMust_fst (r : Resource) (e : GoErr) (c : String) :
    (bankIDCodeMust r e c).1 = r := by
  unfold bankIDCodeMust; split <;> rfl

theorem bankIDCodeOptionalMust_fst (r : Resource) (e : GoErr) (c : String) :
    (bankIDCodeOptionalMust r e c).1 = r := by
  unfold bankIDCodeOptionalMust; split <;> rfl

theorem bankIDRequiredMust_fst (r : Resource) (e : GoErr) (p : String → Bool) :
    (bankIDRequiredMust r e p).1 = r := by
  unfold bankIDRequiredMust; split <;> rfl

theorem bankIDOptionalMust_fst (r : Resource) (e : GoErr) (p : String → Bool) :
    (bankIDOptionalMust r e p).1 = r := by
  unfold bankIDOptionalMust; split <;> rfl

theorem accountNumberOptionalMust_fst (r : Resource) (e : GoErr) (p : String → Bool) :
    (accountNumberOptionalMust r e p).1 = r := by
  unfold accountNumberOptionalMust; split <;> rfl

theorem bicRequired_snd (r : Resource) (e : GoErr) :
    (bicRequired r e).2 = (if r.BIC = "" then [Violation.bicMissing] else []) ++ e := by
  unfold bicRequired; split <;> rfl

theorem ibanNotSupported_snd (r : Resource) (e : GoErr) :
    (ibanNotSupported r e).2 =
      (if r.IBAN ≠ "" then [Violation.ibanPresent r.IBAN] else []) ++ e := by
  unfold ibanNotSupported; split <;> rfl

theorem bankIDNotSupported_snd (r : Resource) (e : GoErr) :
    (bankIDNotSupported r e).2 =
      (if r.BankID ≠ "" then [Violation.bankIDPresent r.BankID] else []) ++ e := by
  unfold bankIDNotSupported; split <;> rfl

theorem bankIDCodeMust_snd (r : Resource) (e : GoErr) (c : String) :
    (bankIDCodeMust r e c).2 =
      (if r.BankIDCode ≠ c then [Violation.bankIDCodeWrong c r.BankIDCode] else []) ++ e := by
  unfold bankIDCodeMust; split <;> rfl

theorem bankIDCodeOptionalMust_snd (r : Resource) (e : GoErr) (c : String) :
    (bankIDCodeOptionalMust r e c).2 =
      (if r.BankIDCode ≠ "" ∧ r.BankIDCode ≠ c then
        [Violation.bankIDCodeOptionalWrong c r.BankIDCode] else []) ++ e := by
  unfold bankIDCodeOptionalMust; split <;> rfl

theorem bankIDRequiredMust_snd (r : Resource) (e : GoErr) (p : String → Bool) :
    (bankIDRequiredMust r e p).2 =
      (if ¬ p r.BankID then [Violation.bankIDFormat r.Country r.BankID] else []) ++ e := by
  unfold bankIDRequiredMust; split <;> rfl

theorem bankIDOptionalMust_snd (r : Resource) (e : GoErr) (p : String → Bool) :
    (bankIDOptionalMust r e p).2 =
      (if r.BankID ≠ "" ∧ ¬ p r.BankID then
        [Violation.bankIDFormat r.Country r.BankID] else []) ++ e := by
  unfold bankIDOptionalMust; split <;> rfl

theorem accountNumberOptionalMust_snd (r : Resource) (e : GoErr) (p : String → Bool) :
    (accountNumberOptionalMust r e p).2 =
      (if r.AccountNumber ≠ "" ∧ ¬ p r.AccountNumber then
        [Violation.accountNumberFormat r.Country r.AccountNumber] else []) ++ e := by
  unfold accountNumberOptionalMust; split <;> rfl

/-- Membership in a one-violation conditional segment. -/
theorem mem_iteSeg {c : Prop} [Decidable c] {v w : Violation} :
    v ∈ (if c then [w] else ([] : GoErr)) ↔ c ∧ v = w := by
  split <;> simp_all

/-- A one-violation conditional segment is nil exactly when its check passes. -/
theorem iteSeg_nil {c : Prop} [Decidable c] {w : Violation} :
    (if c then [w] else ([] : GoErr)) = [] ↔ ¬ c := by
  split <;> simp_all

theorem validateGB_eq (r : Resource) :
    validateGB r =
      (if r.AccountNumber ≠ "" ∧ ¬ reEightDigits r.AccountNumber then [Violation.accountNumberFormat r.Country r.AccountNumber] else [])
      ++ (if r.BankIDCode ≠ "GBDSC" then [Violation.bankIDCodeWrong "GBDSC" r.BankIDCode] else [])
      ++ (if ¬ reSixDigits r.BankID then [Violation.bankIDFormat r.Country r.BankID] else [])
      ++ (if r.BIC = "" then [Violation.bicMissing] else []) := by
  simp only [validateGB, bicRequired_fst, bicRequired_snd, ibanNotSupported_fst, ibanNotSupported_snd, bankIDNotSupported_fst, bankIDNotSupported_snd, bankIDCodeMust_fst, bankIDCodeMust_snd, bankIDCodeOptionalMust_fst, bankIDCodeOptionalMust_snd, bankIDRequiredMust_fst, bankIDRequiredMust_snd, bankIDOptionalMust_fst, bankIDOptionalMust_snd, accountNumberOptionalMust_fst, accountNumberOptionalMust_snd,
    List.append_assoc, List.append_nil]

theorem validateAU_eq (r : Resource) :
    validateAU r =
      (if r.AccountNumber ≠ "" ∧ ¬ reAUAccountNumber r.AccountNumber then [Violation.accountNumberFormat r.Country r.AccountNumber] else [])
      ++ (if r.BankIDCode ≠ "AUBSB" then [Violation.bankIDCodeWrong "AUBSB" r.BankIDCode] else [])
      ++ (if r.BankID ≠ "" ∧ ¬ reSixDigits r.BankID then [Violation.bankIDFormat r.Country r.BankID] else [])
      ++ (if r.IBAN ≠ "" then [Violation.ibanPresent r.IBAN] else [])
      ++ (if r.BIC = "" then [Violation.bicMissing] else []) := by
  simp only [validateAU, bicRequired_fst, bicRequired_snd, ibanNotSupported_fst, ibanNotSupported_snd, bankIDNotSupported_fst, bankIDNotSupported_snd, bankIDCodeMust_fst, bankIDCodeMust_snd, bankIDCodeOptionalMust_fst, bankIDCodeOptionalMust_snd, bankIDRequiredMust_fst, bankIDRequiredMust_snd, bankIDOptionalMust_fst, bankIDOptionalMust_snd, accountNumberOptionalMust_fst, accountNumberOptionalMust_snd,
    List.append_assoc, List.append_nil]

theorem validateBE_eq (r : Resource) :
    validateBE r =
      (if r.AccountNumber ≠ "" ∧ ¬ reSevenDigits r.AccountNumber then [Violation.accountNumberFormat r.Country r.AccountNumber] else [])
      ++ (if r.BankIDCode ≠ "BE" then [Violation.bankIDCodeWrong "BE" r.BankIDCode] else [])
      ++ (if ¬ reThreeDigits r.BankID then [Violation.bankIDFormat r.Country r.BankID] else []) := by
  simp only [validateBE, bicRequired_fst, bicRequired_snd, ibanNotSupported_fst, ibanNotSupported_snd, bankIDNotSupported_fst, bankIDNotSupported_snd, bankIDCodeMust_fst, bankIDCodeMust_snd, bankIDCodeOptionalMust_fst, bankIDCodeOptionalMust_snd, bankIDRequiredMust_fst, bankIDRequiredMust_snd, bankIDOptionalMust_fst, bankIDOptionalMust_snd, accountNumberOptionalMust_fst, accountNumberOptionalMust_snd,
    List.append_assoc, List.append_nil]

theorem validateCA_eq (r : Resource) :
    validateCA r =
      (if r.AccountNumber ≠ "" ∧ ¬ reCAAccountNumber r.AccountNumber then [Violation.accountNumberFormat r.Country r.AccountNumber] else [])
      ++ (if r.BankIDCode ≠ "" ∧ r.BankIDCode ≠ "CACPA" then [Violation.bankIDCodeOptionalWrong "CACPA" r.BankIDCode] else [])
      ++ (if r.BankID ≠ "" ∧ ¬ reCARoutingNumber r.BankID then [Violation.bankIDFormat r.Country r.BankID] else [])
      ++ (if r.IBAN ≠ "" then [Violation.ibanPresent r.IBAN] else [])
      ++ (if r.BIC = "" then [Violation.bicMissing] else []) := by
  simp only [validateCA, bicRequired_fst, bicRequired_snd, ibanNotSupported_fst, ibanNotSupported_snd, bankIDNotSupported_fst, bankIDNotSupported_snd, bankIDCodeMust_fst, bankIDCodeMust_snd, bankIDCodeOptionalMust_fst, bankIDCodeOptionalMust_snd, bankIDRequiredMust_fst, bankIDRequiredMust_snd, bankIDOptionalMust_fst, bankIDOptionalMust_snd, accountNumberOptionalMust_fst, accountNumberOptionalMust_snd,
    List.append_assoc, List.append_nil]

theorem validateFR_eq (r : Resource) :
    validateFR r =
      (if r.AccountNumber ≠ "" ∧ ¬ reTenDigits r.AccountNumber then [Violation.accountNumberFormat r.Country r.AccountNumber] else [])
      ++ (if r.BankIDCode ≠ "FR" then [Violation.bankIDCodeWrong "FR" r.BankIDCode] else [])
      ++ (if ¬ reTenDigits r.BankID then [Violation.bankIDFormat r.Country r.BankID] else []) := by
  simp only [validateFR, bicRequired_fst, bicRequired_snd, ibanNotSupported_fst, ibanNotSupported_snd, bankIDNotSupported_fst, bankIDNotSupported_snd, bankIDCodeMust_fst, bankIDCodeMust_snd, bankIDCodeOptionalMust_fst, bankIDCodeOptionalMust_snd, bankIDRequiredMust_fst, bankIDRequiredMust_snd, bankIDOptionalMust_fst, bankIDOptionalMust_snd, accountNumberOptionalMust_fst, accountNumberOptionalMust_snd,
    List.append_assoc, List.append_nil]

theorem validateDE_eq (r : Resource) :
    validateDE r =
      (if r.AccountNumber ≠ "" ∧ ¬ reSevenDigits r.AccountNumber then [Violation.accountNumberFormat r.Country r.AccountNumber] else [])
      ++ (if r.BankIDCode ≠ "DEBLZ" then [Violation.bankIDCodeWrong "DEBLZ" r.BankIDCode] else [])
      ++ (if ¬ reEightDigits r.BankID then [Violation.bankIDFormat r.Country r.BankID] else []) := by
  simp only [validateDE, bicRequired_fst, bicRequired_snd, ibanNotSupported_fst, ibanNotSupported_snd, bankIDNotSupported_fst, bankIDNotSupported_snd, bankIDCodeMust_fst, bankIDCodeMust_snd, bankIDCodeOptionalMust_fst, bankIDCodeOptionalMust_snd, bankIDRequiredMust_fst, bankIDRequiredMust_snd, bankIDOptionalMust_fst, bankIDOptionalMust_snd, accountNumberOptionalMust_fst, accountNumberOptionalMust_snd,
    List.append_assoc, List.append_nil]

theorem validateGR_eq (r : Resource) :
    validateGR r =
      (if r.AccountNumber ≠ "" ∧ ¬ reSixteenDigits r.AccountNumber then [Violation.accountNumberFormat r.Country r.AccountNumber] else [])
      ++ (if r.BankIDCode ≠ "GRBIC" then [Violation.bankIDCodeWrong "GRBIC" r.BankIDCode] else [])
      ++ (if ¬ reSevenDigits r.BankID then [Violation.bankIDFormat r.Country r.BankID] else []) := by
  simp only [validateGR, bicRequired_fst, bicRequired_snd, ibanNotSupported_fst, ibanNotSupported_snd, bankIDNotSupported_fst, bankIDNotSupported_snd, bankIDCodeMust_fst, bankIDCodeMust_snd, bankIDCodeOptionalMust_fst, bankIDCodeOptionalMust_snd, bankIDRequiredMust_fst, bankIDRequiredMust_snd, bankIDOptionalMust_fst, bankIDOptionalMust_snd, accountNumberOptionalMust_fst, accountNumberOptionalMust_snd,
    List.append_assoc, List.append_nil]

theorem validateHK_eq (r : Resource) :
    validateHK r =
      (if r.AccountNumber ≠ "" ∧ ¬ reHKAccountNumber r.AccountNumber then [Violation.accountNumberFormat r.Country r.AccountNumber] else [])
      ++ (if r.BankIDCode ≠ "" ∧ r.BankIDCode ≠ "HKNCC" then [Violation.bankIDCodeOptionalWrong "HKNCC" r.BankIDCode] else [])
      ++ (if r.BankID ≠ "" ∧ ¬ reThreeDigits r.BankID then [Violation.bankIDFormat r.Country r.BankID] else [])
      ++ (if r.IBAN ≠ "" then [Violation.ibanPresent r.IBAN] else [])
      ++ (if r.BIC = "" then [Violation.bicMissing] else []) := by
  simp only [validateHK, bicRequired_fst, bicRequired_snd, ibanNotSupported_fst, ibanNotSupported_snd, bankIDNotSupported_fst, bankIDNotSupported_snd, bankIDCodeMust_fst, bankIDCodeMust_snd, bankIDCodeOptionalMust_fst, bankIDCodeOptionalMust_snd, bankIDRequiredMust_fst, bankIDRequiredMust_snd, bankIDOptionalMust_fst, bankIDOptionalMust_snd, accountNumberOptionalMust_fst, accountNumberOptionalMust_snd,
    List.append_assoc, List.append_nil]

theorem validateLU_eq (r : Resource) :
    validateLU r =
      (if r.AccountNumber ≠ "" ∧ ¬ reThirteenDigits r.AccountNumber then [Violation.accountNumberFormat r.Country r.AccountNumber] else [])
      ++ (if r.BankIDCode ≠ "LULUX" then [Violation.bankIDCodeWrong "LULUX" r.BankIDCode] else [])
      ++ (if ¬ reThreeDigits r.BankID then [Violation.bankIDFormat r.Country r.BankID] else []) := by
  simp only [validateLU, bicRequired_fst, bicRequired_snd, ibanNotSupported_fst, ibanNotSupported_snd, bankIDNotSupported_fst, bankIDNotSupported_snd, bankIDCodeMust_fst, bankIDCodeMust_snd, bankIDCodeOptionalMust_fst, bankIDCodeOptionalMust_snd, bankIDRequiredMust_fst, bankIDRequiredMust_snd, bankIDOptionalMust_fst, bankIDOptionalMust_snd, accountNumberOptionalMust_fst, accountNumberOptionalMust_snd,
    List.append_assoc, List.append_nil]

theorem validateNL_eq (r : Resource) :
    validateNL r =
      (if r.AccountNumber ≠ "" ∧ ¬ reTenDigits r.AccountNumber then [Violation.accountNumberFormat r.Country r.AccountNumber] else [])
      ++ (if r.BankIDCode ≠ "" then [Violation.bankIDCodeWrong "" r.BankIDCode] else [])
      ++ (if r.BIC = "" then [Violation.bicMissing] else [])
      ++ (if r.BankID ≠ "" then [Violation.bankIDPresent r.BankID] else []) := by
  simp only [validateNL, bicRequired_fst, bicRequired_snd, ibanNotSupported_fst, ibanNotSupported_snd, bankIDNotSupported_fst, bankIDNotSupported_snd, bankIDCodeMust_fst, bankIDCodeMust_snd, bankIDCodeOptionalMust_fst, bankIDCodeOptionalMust_snd, bankIDRequiredMust_fst, bankIDRequiredMust_snd, bankIDOptionalMust_fst, bankIDOptionalMust_snd, accountNumberOptionalMust_fst, accountNumberOptionalMust_snd,
    List.append_assoc, List.append_nil]

theorem validatePL_eq (r : Resource) :
    validatePL r =
      (if r.AccountNumber ≠ "" ∧ ¬ reSixteenDigits r.AccountNumber then [Violation.accountNumberFormat r.Country r.AccountNumber] else [])
      ++ (if r.BankIDCode ≠ "PLKNR" then [Violation.bankIDCodeWrong "PLKNR" r.BankIDCode] else [])
      ++ (if ¬ reEightDigits r.BankID then [Violation.bankIDFormat r.Country r.BankID] else []) := by
  simp only [validatePL, bicRequired_fst, bicRequired_snd, ibanNotSupported_fst, ibanNotSupported_snd, bankIDNotSupported_fst, bankIDNotSupported_snd, bankIDCodeMust_fst, bankIDCodeMust_snd, bankIDCodeOptionalMust_fst, bankIDCodeOptionalMust_snd, bankIDRequiredMust_fst, bankIDRequiredMust_snd, bankIDOptionalMust_fst, bankIDOptionalMust_snd, accountNumberOptionalMust_fst, accountNumberOptionalMust_snd,
    List.append_assoc, List.append_nil]

theorem validatePT_eq (r : Resource) :
    validatePT r =
      (if r.AccountNumber ≠ "" ∧ ¬ reElevenDigits r.AccountNumber then [Violation.accountNumberFormat r.Country r.AccountNumber] else [])
      ++ (if r.BankIDCode ≠ "PTNCC" then [Violation.bankIDCodeWrong "PTNCC" r.BankIDCode] else [])
      ++ (if ¬ reEightDigits r.BankID then [Violation.bankIDFormat r.Country r.BankID] else []) := by
  simp only [validatePT, bicRequired_fst, bicRequired_snd, ibanNotSupported_fst, ibanNotSupported_snd, bankIDNotSupported_fst, bankIDNotSupported_snd, bankIDCodeMust_fst, bankIDCodeMust_snd, bankIDCodeOptionalMust_fst, bankIDCodeOptionalMust_snd, bankIDRequiredMust_fst, bankIDRequiredMust_snd, bankIDOptionalMust_fst, bankIDOptionalMust_snd, accountNumberOptionalMust_fst, accountNumberOptionalMust_snd,
    List.append_assoc, List.append_nil]

theorem validateES_eq (r : Resource) :
    validateES r =
      (if r.AccountNumber ≠ "" ∧ ¬ reTenDigits r.AccountNumber then [Violation.accountNumberFormat r.Country r.AccountNumber] else [])
      ++ (if r.BankIDCode ≠ "ESNCC" then [Violation.bankIDCodeWrong "ESNCC" r.BankIDCode] else [])
      ++ (if ¬ reEightDigits r.BankID then [Violation.bankIDFormat r.Country r.BankID] else []) := by
  simp only [validateES, bicRequired_fst, bicRequired_snd, ibanNotSupported_fst, ibanNotSupported_snd, bankIDNotSupported_fst, bankIDNotSupported_snd, bankIDCodeMust_fst, bankIDCodeMust_snd, bankIDCodeOptionalMust_fst, bankIDCodeOptionalMust_snd, bankIDRequiredMust_fst, bankIDRequiredMust_snd, bankIDOptionalMust_fst, bankIDOptionalMust_snd, accountNumberOptionalMust_fst, accountNumberOptionalMust_snd,
    List.append_assoc, List.append_nil]

theorem validateCH_eq (r : Resource) :
    validateCH r =
      (if r.AccountNumber ≠ "" ∧ ¬ reTwelveDigits r.AccountNumber then [Violation.accountNumberFormat r.Country r.AccountNumber] else [])
      ++ (if r.BankIDCode ≠ "CHBCC" then [Violation.bankIDCodeWrong "CHBCC" r.BankIDCode] else [])
      ++ (if ¬ reFiveDigits r.BankID then [Violation.bankIDFormat r.Country r.BankID] else []) := by
  simp only [validateCH, bicRequired_fst, bicRequired_snd, ibanNotSupported_fst, ibanNotSupported_snd, bankIDNotSupported_fst, bankIDNotSupported_snd, bankIDCodeMust_fst, bankIDCodeMust_snd, bankIDCodeOptionalMust_fst, bankIDCodeOptionalMust_snd, bankIDRequiredMust_fst, bankIDRequiredMust_snd, bankIDOptionalMust_fst, bankIDOptionalMust_snd, accountNumberOptionalMust_fst, accountNumberOptionalMust_snd,
    List.append_assoc, List.append_nil]

theorem validateUS_eq (r : Resource) :
    validateUS r =
      (if ¬ reNineDigits r.BankID then [Violation.bankIDFormat r.Country r.BankID] else [])
      ++ (if r.BankIDCode ≠ "USABA" then [Violation.bankIDCodeWrong "USABA" r.BankIDCode] else [])
      ++ (if r.AccountNumber ≠ "" ∧ ¬ reUSAccountNumber r.AccountNumber then [Violation.accountNumberFormat r.Country r.AccountNumber] else [])
      ++ (if r.IBAN ≠ "" then [Violation.ibanPresent r.IBAN] else [])
      ++ (if r.BIC = "" then [Violation.bicMissing] else []) := by
  simp only [validateUS, bicRequired_fst, bicRequired_snd, ibanNotSupported_fst, ibanNotSupported_snd, bankIDNotSupported_fst, bankIDNotSupported_snd, bankIDCodeMust_fst, bankIDCodeMust_snd, bankIDCodeOptionalMust_fst, bankIDCodeOptionalMust_snd, bankIDRequiredMust_fst, bankIDRequiredMust_snd, bankIDOptionalMust_fst, bankIDOptionalMust_snd, accountNumberOptionalMust_fst, accountNumberOptionalMust_snd,
    List.append_assoc, List.append_nil]

theorem validateIT_eq (r : Resource) :
    validateIT r =
      (if r.BankIDCode ≠ "ITNCC" then [Violation.bankIDCodeWrong "ITNCC" r.BankIDCode] else [])
      ++ (if ¬ (if r.AccountNumber ≠ "" then reElevenDigits else reTenDigits) r.BankID then
            [Violation.bankIDFormat r.Country r.BankID] else [])
      ++ (if r.AccountNumber ≠ "" ∧ ¬ reTwelveDigits r.AccountNumber then
            [Violation.itAccountNumberFormat r.AccountNumber] else []) := by
  simp only [validateIT, bicRequired_fst, bicRequired_snd, ibanNotSupported_fst, ibanNotSupported_snd, bankIDNotSupported_fst, bankIDNotSupported_snd, bankIDCodeMust_fst, bankIDCodeMust_snd, bankIDCodeOptionalMust_fst, bankIDCodeOptionalMust_snd, bankIDRequiredMust_fst, bankIDRequiredMust_snd, bankIDOptionalMust_fst, bankIDOptionalMust_snd, accountNumberOptionalMust_fst, accountNumberOptionalMust_snd,
    List.append_assoc, List.append_nil]


/-! ## Codec lemmas: key lookup and the encode/decode round trip -/

theorem foldl_lookup (l : List (String × Json)) (x : Option Json) (k : String) :
    l.foldl (fun acc kv => if kv.1 = k then some kv.2 else acc) x =
      (lookupLast l k).orElse (fun _ => x) := by
  induction l generalizing x with
  | nil => rfl
  | cons kv t ih =>
    show t.foldl _ (if kv.1 = k then some kv.2 else x) = _
    rw [ih]
    have h2 : lookupLast (kv :: t) k =
        (lookupLast t k).orElse (fun _ => if kv.1 = k then some kv.2 else none) := by
      show t.foldl _ (if kv.1 = k then some kv.2 else none) = _
      rw [ih]
    rw [h2]
    cases hlt : lookupLast t k
    · by_cases hk : kv.1 = k <;> simp [hk, Option.orElse]
    · rfl

theorem lookupLast_append (a b : List (String × Json)) (k : String) :
    lookupLast (a ++ b) k = (lookupLast b k).orElse (fun _ => lookupLast a k) := by
  show (a ++ b).foldl _ none = _
  rw [List.foldl_append]
  exact foldl_lookup b _ k

theorem orElse_none_right (o : Option Json) :
    (o.orElse fun _ => none) = o := by cases o <;> rfl

theorem none_orElse_left (f : Unit → Option Json) :
    (Option.none.orElse f) = f () := rfl

theorem lookupLast_cons (key k : String) (v : Json) (t : List (String × Json)) :
    lookupLast ((key, v) :: t) k =
      (lookupLast t k).orElse (fun _ => if key = k then some v else none) := by
  show t.foldl _ (if key = k then some v else none) = _
  exact foldl_lookup t _ k

theorem lookupLast_nil (k : String) : lookupLast [] k = none := rfl

theorem lookupLast_single (key k : String) (v : Json) :
    lookupLast [(key, v)] k = if key = k then some v else none := rfl

theorem lookupLast_omitemptyStr (key s k : String) :
    lookupLast (omitemptyStr key s) k =
      if key = k then (if s = "" then none else some (Json.str s)) else none := by
  unfold omitemptyStr lookupLast
  split_ifs <;> simp_all

theorem lookupLast_omitemptyBool (key k : String) (b : Bool) :
    lookupLast (omitemptyBool key b) k =
      if key = k then (if b then some (Json.bool b) else none) else none := by
  unfold omitemptyBool lookupLast
  split_ifs <;> simp_all

theorem decodeString_omit (s : String) :
    decodeString (if s = "" then none else some (Json.str s)) = .ok s := by
  split <;> simp_all [decodeString]

theorem decodeBool_omit (b : Bool) :
    decodeBool (if b then some (Json.bool b) else none) = .ok b := by
  split <;> simp_all [decodeBool]

theorem decodeString_some_str (s : String) :
    decodeString (some (Json.str s)) = .ok s := rfl

theorem decodeInt_some_num (n : Int) :
    decodeInt (some (Json.num n)) = .ok n := rfl

theorem decodeName4_enc (a b c d : String) :
    decodeName4 (some (.arr [.str a, .str b, .str c, .str d])) = .ok ⟨a, b, c, d⟩ := rfl

theorem decodeName3_enc (a b c : String) :
    decodeName3 (some (.arr [.str a, .str b, .str c])) = .ok ⟨a, b, c⟩ := rfl

theorem decodeLinks_roundtrip (l : Links) :
    decodeLinks (some (encodeLinks l)) = .ok l := by
  simp [encodeLinks, decodeLinks, lookupLast_append, lookupLast_cons,
    lookupLast_omitemptyStr, lookupLast_single, lookupLast_nil, orElse_none_right,
    none_orElse_left, decodeString_omit, decodeString_some_str, bind,
    Except.bind]

theorem decodeResource_roundtrip (r : Resource) :
    decodeResource (some (encodeResource r)) = .ok r := by
  simp [encodeResource, decodeResource, lookupLast_append, lookupLast_cons,
    lookupLast_omitemptyStr, lookupLast_omitemptyBool, lookupLast_single, lookupLast_nil,
    orElse_none_right, none_orElse_left, decodeString_omit, decodeBool_omit,
    decodeString_some_str, decodeName4_enc, decodeName3_enc, bind, Except.bind]

theorem decodeData_roundtrip (d : Data) :
    decodeData (some (encodeData d)) = .ok d := by
  simp [encodeData, decodeData, lookupLast_append, lookupLast_cons,
    lookupLast_single, lookupLast_nil, orElse_none_right, none_orElse_left,
    decodeString_some_str, decodeInt_some_num, decodeResource_roundtrip,
    bind, Except.bind]

theorem decodePayloadJson_roundtrip (p : Payload) :
    decodePayloadJson (marshalPayload p) = .ok p := by
  simp [marshalPayload, decodePayloadJson, lookupLast_cons, lookupLast_single,
    lookupLast_nil, orElse_none_right, none_orElse_left, decodeData_roundtrip,
    decodeLinks_roundtrip, bind, Except.bind]


/-! ## Shared lemmas for the claim theorems -/

theorem forall_mem_iteSeg {c : Prop} [Decidable c] {w : Violation}
    {p : Violation → Prop} :
    (∀ v ∈ (if c then [w] else ([] : GoErr)), p v) ↔ (c → p w) := by
  split <;> simp_all

theorem keys_omitemptyStr (key s : String) :
    (omitemptyStr key s).map (fun kv => kv.1) = if s = "" then [] else [key] := by
  unfold omitemptyStr; split <;> rfl

theorem keys_omitemptyBool (key : String) (b : Bool) :
    (omitemptyBool key b).map (fun kv => kv.1) = if b then [key] else [] := by
  unfold omitemptyBool; split <;> rfl

theorem mem_ite_nil_single {c : Prop} [Decidable c] {k key : String} :
    (k ∈ if c then ([] : List String) else [key]) ↔ ¬ c ∧ k = key := by
  split <;> simp_all

theorem mem_ite_single_nil {c : Prop} [Decidable c] {k key : String} :
    (k ∈ if c then [key] else ([] : List String)) ↔ c ∧ k = key := by
  split <;> simp_all

/-- `ValidateResource` restated with every per-country validator replaced by
its closed form.  The right-hand side mentions only the country, bank id,
bank id code, BIC, account number and IBAN fields of the record. -/
theorem ValidateResource_closed (r : Resource) :
    ValidateResource r =
      if r.Country = "GB" then
        (if r.AccountNumber ≠ "" ∧ ¬ reEightDigits r.AccountNumber then [Violation.accountNumberFormat r.Country r.AccountNumber] else [])
        ++ (if r.BankIDCode ≠ "GBDSC" then [Violation.bankIDCodeWrong "GBDSC" r.BankIDCode] else [])
        ++ (if ¬ reSixDigits r.BankID then [Violation.bankIDFormat r.Country r.BankID] else [])
        ++ (if r.BIC = "" then [Violation.bicMissing] else [])
      else if r.Country = "AU" then
        (if r.AccountNumber ≠ "" ∧ ¬ reAUAccountNumber r.AccountNumber then [Violation.accountNumberFormat r.Country r.AccountNumber] else [])
        ++ (if r.BankIDCode ≠ "AUBSB" then [Violation.bankIDCodeWrong "AUBSB" r.BankIDCode] else [])
        ++ (if r.BankID ≠ "" ∧ ¬ reSixDigits r.BankID then [Violation.bankIDFormat r.Country r.BankID] else [])
        ++ (if r.IBAN ≠ "" then [Violation.ibanPresent r.IBAN] else [])
        ++ (if r.BIC = "" then [Violation.bicMissing] else [])
      else if r.Country = "BE" then
        (if r.AccountNumber ≠ "" ∧ ¬ reSevenDigits r.AccountNumber then [Violation.accountNumberFormat r.Country r.AccountNumber] else [])
        ++ (if r.BankIDCode ≠ "BE" then [Violation.bankIDCodeWrong "BE" r.BankIDCode] else [])
        ++ (if ¬ reThreeDigits r.BankID then [Violation.bankIDFormat r.Country r.BankID] else [])
      else if r.Country = "CA" then
        (if r.AccountNumber ≠ "" ∧ ¬ reCAAccountNumber r.AccountNumber then [Violation.accountNumberFormat r.Country r.AccountNumber] else [])
        ++ (if r.BankIDCode ≠ "" ∧ r.BankIDCode ≠ "CACPA" then [Violation.bankIDCodeOptionalWrong "CACPA" r.BankIDCode] else [])
        ++ (if r.BankID ≠ "" ∧ ¬ reCARoutingNumber r.BankID then [Violation.bankIDFormat r.Country r.BankID] else [])
        ++ (if r.IBAN ≠ "" then [Violation.ibanPresent r.IBAN] else [])
        ++ (if r.BIC = "" then [Violation.bicMissing] else [])
      else if r.Country = "FR" then
        (if r.AccountNumber ≠ "" ∧ ¬ reTenDigits r.AccountNumber then [Violation.accountNumberFormat r.Country r.AccountNumber] else [])
        ++ (if r.BankIDCode ≠ "FR" then [Violation.bankIDCodeWrong "FR" r.BankIDCode] else [])
        ++ (if ¬ reTenDigits r.BankID then [Violation.bankIDFormat r.Country r.BankID] else [])
      else if r.Country = "DE" then
        (if r.AccountNumber ≠ "" ∧ ¬ reSevenDigits r.AccountNumber then [Violation.accountNumberFormat r.Country r.AccountNumber] else [])
        ++ (if r.BankIDCode ≠ "DEBLZ" then [Violation.bankIDCodeWrong "DEBLZ" r.BankIDCode] else [])
        ++ (if ¬ reEightDigits r.BankID then [Violation.bankIDFormat r.Country r.BankID] else [])
      else if r.Country = "GR" then
        (if r.AccountNumber ≠ "" ∧ ¬ reSixteenDigits r.AccountNumber then [Violation.accountNumberFormat r.Country r.AccountNumber] else [])
        ++ (if r.BankIDCode ≠ "GRBIC" then [Violation.bankIDCodeWrong "GRBIC" r.BankIDCode] else [])
        ++ (if ¬ reSevenDigits r.BankID then [Violation.bankIDFormat r.Country r.BankID] else [])
      else if r.Country = "HK" then
        (if r.AccountNumber ≠ "" ∧ ¬ reHKAccountNumber r.AccountNumber then [Violation.accountNumberFormat r.Country r.AccountNumber] else [])
        ++ (if r.BankIDCode ≠ "" ∧ r.BankIDCode ≠ "HKNCC" then [Violation.bankIDCodeOptionalWrong "HKNCC" r.BankIDCode] else [])
        ++ (if r.BankID ≠ "" ∧ ¬ reThreeDigits r.BankID then [Violation.bankIDFormat r.Country r.BankID] else [])
        ++ (if r.IBAN ≠ "" then [Violation.ibanPresent r.IBAN] else [])
        ++ (if r.BIC = "" then [Violation.bicMissing] else [])
      else if r.Country = "IT" then
        (if r.BankIDCode ≠ "ITNCC" then [Violation.bankIDCodeWrong "ITNCC" r.BankIDCode] else [])
        ++ (if ¬ (if r.AccountNumber ≠ "" then reElevenDigits else reTenDigits) r.BankID then [Violation.bankIDFormat r.Country r.BankID] else [])
        ++ (if r.AccountNumber ≠ "" ∧ ¬ reTwelveDigits r.AccountNumber then [Violation.itAccountNumberFormat r.AccountNumber] else [])
      else if r.Country = "LU" then
        (if r.AccountNumber ≠ "" ∧ ¬ reThirteenDigits r.AccountNumber then [Violation.accountNumberFormat r.Country r.AccountNumber] else [])
        ++ (if r.BankIDCode ≠ "LULUX" then [Violation.bankIDCodeWrong "LULUX" r.BankIDCode] else [])
        ++ (if ¬ reThreeDigits r.BankID then [Violation.bankIDFormat r.Country r.BankID] else [])
      else if r.Country = "NL" then
        (if r.AccountNumber ≠ "" ∧ ¬ reTenDigits r.AccountNumber then [Violation.accountNumberFormat r.Country r.AccountNumber] else [])
        ++ (if r.BankIDCode ≠ "" then [Violation.bankIDCodeWrong "" r.BankIDCode] else [])
        ++ (if r.BIC = "" then [Violation.bicMissing] else [])
        ++ (if r.BankID ≠ "" then [Violation.bankIDPresent r.BankID] else [])
      else if r.Country = "PL" then
        (if r.AccountNumber ≠ "" ∧ ¬ reSixteenDigits r.AccountNumber then [Violation.accountNumberFormat r.Country r.AccountNumber] else [])
        ++ (if r.BankIDCode ≠ "PLKNR" then [Violation.bankIDCodeWrong "PLKNR" r.BankIDCode] else [])
        ++ (if ¬ reEightDigits r.BankID then [Violation.bankIDFormat r.Country r.BankID] else [])
      else if r.Country = "PT" then
        (if r.AccountNumber ≠ "" ∧ ¬ reElevenDigits r.AccountNumber then [Violation.accountNumberFormat r.Country r.AccountNumber] else [])
        ++ (if r.BankIDCode ≠ "PTNCC" then [Violation.bankIDCodeWrong "PTNCC" r.BankIDCode] else [])
        ++ (if ¬ reEightDigits r.BankID then [Violation.bankIDFormat r.Country r.BankID] else [])
      else if r.Country = "ES" then
        (if r.AccountNumber ≠ "" ∧ ¬ reTenDigits r.AccountNumber then [Violation.accountNumberFormat r.Country r.AccountNumber] else [])
        ++ (if r.BankIDCode ≠ "ESNCC" then [Violation.bankIDCodeWrong "ESNCC" r.BankIDCode] else [])
        ++ (if ¬ reEightDigits r.BankID then [Violation.bankIDFormat r.Country r.BankID] else [])
      else if r.Country = "CH" then
        (if r.AccountNumber ≠ "" ∧ ¬ reTwelveDigits r.AccountNumber then [Violation.accountNumberFormat r.Country r.AccountNumber] else [])
        ++ (if r.BankIDCode ≠ "CHBCC" then [Violation.bankIDCodeWrong "CHBCC" r.BankIDCode] else [])
        ++ (if ¬ reFiveDigits r.BankID then [Violation.bankIDFormat r.Country r.BankID] else [])
      else if r.Country = "US" then
        (if ¬ reNineDigits r.BankID then [Violation.bankIDFormat r.Country r.BankID] else [])
        ++ (if r.BankIDCode ≠ "USABA" then [Violation.bankIDCodeWrong "USABA" r.BankIDCode] else [])
        ++ (if r.AccountNumber ≠ "" ∧ ¬ reUSAccountNumber r.AccountNumber then [Violation.accountNumberFormat r.Country r.AccountNumber] else [])
        ++ (if r.IBAN ≠ "" then [Violation.ibanPresent r.IBAN] else [])
        ++ (if r.BIC = "" then [Violation.bicMissing] else [])
      else [.unsupportedCountry r.Country] := by
  simp only [ValidateResource, validateGB_eq, validateAU_eq, validateBE_eq, validateCA_eq, validateFR_eq, validateDE_eq, validateGR_eq, validateHK_eq, validateIT_eq, validateLU_eq, validateNL_eq, validatePL_eq, validatePT_eq, validateES_eq, validateCH_eq, validateUS_eq,
    List.append_assoc]


/-! ## The claims -/

/-- Claim C1: for every account record whose country is not one of the
sixteen supported codes, `ValidateResource` fails with the
unsupported-country error, regardless of all other field values. -/
theorem claim1_unsupported_country (r : Resource)
    (h : r.Country ∉ supportedCountries) :
    ValidateResource r = [.unsupportedCountry r.Country] := by
  simp only [supportedCountries, List.mem_cons, List.not_mem_nil, or_false,
    not_or] at h
  obtain ⟨h1, h2, h3, h4, h5, h6, h7, h8, h9, h10, h11, h12, h13, h14, h15,
    h16⟩ := h
  simp [ValidateResource, h1, h2, h3, h4, h5, h6, h7, h8, h9, h10, h11, h12,
    h13, h14, h15, h16]

/-- Witness for C1 at the concrete country code "ZZ". -/
theorem claim1_unsupported_country_witness :
    ValidateResource { resourceZero with Country := "ZZ" } =
      [.unsupportedCountry "ZZ"] :=
  claim1_unsupported_country { resourceZero with Country := "ZZ" } (by decide)


/-- Claim C2: for Italy, success requires a 10-digit bank identifier when the
account number is absent and an 11-digit one when it is present, with a
present account number being exactly 12 digits; violating any of these
co-determined constraints yields a validation error. -/
theorem claim2_italy_codetermined (r : Resource) (h : r.Country = "IT") :
    (ValidateResource r = [] →
      (r.AccountNumber = "" ∧ reTenDigits r.BankID = true) ∨
      (r.AccountNumber ≠ "" ∧ reElevenDigits r.BankID = true ∧
        reTwelveDigits r.AccountNumber = true)) ∧
    (r.AccountNumber = "" → reTenDigits r.BankID = false →
      ValidateResource r ≠ []) ∧
    (r.AccountNumber ≠ "" → reElevenDigits r.BankID = false →
      ValidateResource r ≠ []) ∧
    (r.AccountNumber ≠ "" → reTwelveDigits r.AccountNumber = false →
      ValidateResource r ≠ []) := by
  have hv : ValidateResource r = validateIT r := by simp [ValidateResource, h]
  rw [hv, validateIT_eq]
  by_cases han : r.AccountNumber = "" <;>
    simp [han, List.append_eq_nil, iteSeg_nil] <;>
    first
    | tauto
    | simp_all

/-- Witness for C2: an 11-digit bank id is rejected for Italy when the
account number is absent, per the 10-digit branch. -/
theorem claim2_italy_codetermined_witness :
    ValidateResource
      { resourceZero with
        Country := "IT", BankIDCode := "ITNCC",
        BankID := "1234567890", AccountNumber := "123456789012" } ≠ [] :=
  (claim2_italy_codetermined
    { resourceZero with
      Country := "IT", BankIDCode := "ITNCC",
      BankID := "1234567890", AccountNumber := "123456789012" } rfl).2.2.1
    (by decide) (by decide)


/-- Claim C3: for every supported country, the single error returned by
`ValidateResource` is exactly the concatenation of one violation per failing
field check, so a record violating several rules gets one non-nil error
carrying every violated field, never just the first. -/
theorem claim3_collect_all_violations (r : Resource) :
    (r.Country = "GB" → ValidateResource r =
      (if r.AccountNumber ≠ "" ∧ ¬ reEightDigits r.AccountNumber then [Violation.accountNumberFormat r.Country r.AccountNumber] else [])
      ++ (if r.BankIDCode ≠ "GBDSC" then [Violation.bankIDCodeWrong "GBDSC" r.BankIDCode] else [])
      ++ (if ¬ reSixDigits r.BankID then [Violation.bankIDFormat r.Country r.BankID] else [])
      ++ (if r.BIC = "" then [Violation.bicMissing] else [])) ∧
    (r.Country = "AU" → ValidateResource r =
      (if r.AccountNumber ≠ "" ∧ ¬ reAUAccountNumber r.AccountNumber then [Violation.accountNumberFormat r.Country r.AccountNumber] else [])
      ++ (if r.BankIDCode ≠ "AUBSB" then [Violation.bankIDCodeWrong "AUBSB" r.BankIDCode] else [])
      ++ (if r.BankID ≠ "" ∧ ¬ reSixDigits r.BankID then [Violation.bankIDFormat r.Country r.BankID] else [])
      ++ (if r.IBAN ≠ "" then [Violation.ibanPresent r.IBAN] else [])
      ++ (if r.BIC = "" then [Violation.bicMissing] else [])) ∧
    (r.Country = "BE" → ValidateResource r =
      (if r.AccountNumber ≠ "" ∧ ¬ reSevenDigits r.AccountNumber then [Violation.accountNumberFormat r.Country r.AccountNumber] else [])
      ++ (if r.BankIDCode ≠ "BE" then [Violation.bankIDCodeWrong "BE" r.BankIDCode] else [])
      ++ (if ¬ reThreeDigits r.BankID then [Violation.bankIDFormat r.Country r.BankID] else [])) ∧
    (r.Country = "CA" → ValidateResource r =
      (if r.AccountNumber ≠ "" ∧ ¬ reCAAccountNumber r.AccountNumber then [Violation.accountNumberFormat r.Country r.AccountNumber] else [])
      ++ (if r.BankIDCode ≠ "" ∧ r.BankIDCode ≠ "CACPA" then [Violation.bankIDCodeOptionalWrong "CACPA" r.BankIDCode] else [])
      ++ (if r.BankID ≠ "" ∧ ¬ reCARoutingNumber r.BankID then [Violation.bankIDFormat r.Country r.BankID] else [])
      ++ (if r.IBAN ≠ "" then [Violation.ibanPresent r.IBAN] else [])
      ++ (if r.BIC = "" then [Violation.bicMissing] else [])) ∧
    (r.Country = "FR" → ValidateResource r =
      (if r.AccountNumber ≠ "" ∧ ¬ reTenDigits r.AccountNumber then [Violation.accountNumberFormat r.Country r.AccountNumber] else [])
      ++ (if r.BankIDCode ≠ "FR" then [Violation.bankIDCodeWrong "FR" r.BankIDCode] else [])
      ++ (if ¬ reTenDigits r.BankID then [Violation.bankIDFormat r.Country r.BankID] else [])) ∧
    (r.Country = "DE" → ValidateResource r =
      (if r.AccountNumber ≠ "" ∧ ¬ reSevenDigits r.AccountNumber then [Violation.accountNumberFormat r.Country r.AccountNumber] else [])
      ++ (if r.BankIDCode ≠ "DEBLZ" then [Violation.bankIDCodeWrong "DEBLZ" r.BankIDCode] else [])
      ++ (if ¬ reEightDigits r.BankID then [Violation.bankIDFormat r.Country r.BankID] else [])) ∧
    (r.Country = "GR" → ValidateResource r =
      (if r.AccountNumber ≠ "" ∧ ¬ reSixteenDigits r.AccountNumber then [Violation.accountNumberFormat r.Country r.AccountNumber] else [])
      ++ (if r.BankIDCode ≠ "GRBIC" then [Violation.bankIDCodeWrong "GRBIC" r.BankIDCode] else [])
      ++ (if ¬ reSevenDigits r.BankID then [Violation.bankIDFormat r.Country r.BankID] else [])) ∧
    (r.Country = "HK" → ValidateResource r =
      (if r.AccountNumber ≠ "" ∧ ¬ reHKAccountNumber r.AccountNumber then [Violation.accountNumberFormat r.Country r.AccountNumber] else [])
      ++ (if r.BankIDCode ≠ "" ∧ r.BankIDCode ≠ "HKNCC" then [Violation.bankIDCodeOptionalWrong "HKNCC" r.BankIDCode] else [])
      ++ (if r.BankID ≠ "" ∧ ¬ reThreeDigits r.BankID then [Violation.bankIDFormat r.Country r.BankID] else [])
      ++ (if r.IBAN ≠ "" then [Violation.ibanPresent r.IBAN] else [])
      ++ (if r.BIC = "" then [Violation.bicMissing] else [])) ∧
    (r.Country = "IT" → ValidateResource r =
      (if r.BankIDCode ≠ "ITNCC" then [Violation.bankIDCodeWrong "ITNCC" r.BankIDCode] else [])
      ++ (if ¬ (if r.AccountNumber ≠ "" then reElevenDigits else reTenDigits) r.BankID then [Violation.bankIDFormat r.Country r.BankID] else [])
      ++ (if r.AccountNumber ≠ "" ∧ ¬ reTwelveDigits r.AccountNumber then [Violation.itAccountNumberFormat r.AccountNumber] else [])) ∧
    (r.Country = "LU" → ValidateResource r =
      (if r.AccountNumber ≠ "" ∧ ¬ reThirteenDigits r.AccountNumber then [Violation.accountNumberFormat r.Country r.AccountNumber] else [])
      ++ (if r.BankIDCode ≠ "LULUX" then [Violation.bankIDCodeWrong "LULUX" r.BankIDCode] else [])
      ++ (if ¬ reThreeDigits r.BankID then [Violation.bankIDFormat r.Country r.BankID] else [])) ∧
    (r.Country = "NL" → ValidateResource r =
      (if r.AccountNumber ≠ "" ∧ ¬ reTenDigits r.AccountNumber then [Violation.accountNumberFormat r.Country r.AccountNumber] else [])
      ++ (if r.BankIDCode ≠ "" then [Violation.bankIDCodeWrong "" r.BankIDCode] else [])
      ++ (if r.BIC = "" then [Violation.bicMissing] else [])
      ++ (if r.BankID ≠ "" then [Violation.bankIDPresent r.BankID] else [])) ∧
    (r.Country = "PL" → ValidateResource r =
      (if r.AccountNumber ≠ "" ∧ ¬ reSixteenDigits r.AccountNumber then [Violation.accountNumberFormat r.Country r.AccountNumber] else [])
      ++ (if r.BankIDCode ≠ "PLKNR" then [Violation.bankIDCodeWrong "PLKNR" r.BankIDCode] else [])
      ++ (if ¬ reEightDigits r.BankID then [Violation.bankIDFormat r.Country r.BankID] else [])) ∧
    (r.Country = "PT" → ValidateResource r =
      (if r.AccountNumber ≠ "" ∧ ¬ reElevenDigits r.AccountNumber then [Violation.accountNumberFormat r.Country r.AccountNumber] else [])
      ++ (if r.BankIDCode ≠ "PTNCC" then [Violation.bankIDCodeWrong "PTNCC" r.BankIDCode] else [])
      ++ (if ¬ reEightDigits r.BankID then [Violation.bankIDFormat r.Country r.BankID] else [])) ∧
    (r.Country = "ES" → ValidateResource r =
      (if r.AccountNumber ≠ "" ∧ ¬ reTenDigits r.AccountNumber then [Violation.accountNumberFormat r.Country r.AccountNumber] else [])
      ++ (if r.BankIDCode ≠ "ESNCC" then [Violation.bankIDCodeWrong "ESNCC" r.BankIDCode] else [])
      ++ (if ¬ reEightDigits r.BankID then [Violation.bankIDFormat r.Country r.BankID] else [])) ∧
    (r.Country = "CH" → ValidateResource r =
      (if r.AccountNumber ≠ "" ∧ ¬ reTwelveDigits r.AccountNumber then [Violation.accountNumberFormat r.Country r.AccountNumber] else [])
      ++ (if r.BankIDCode ≠ "CHBCC" then [Violation.bankIDCodeWrong "CHBCC" r.BankIDCode] else [])
      ++ (if ¬ reFiveDigits r.BankID then [Violation.bankIDFormat r.Country r.BankID] else [])) ∧
    (r.Country = "US" → ValidateResource r =
      (if ¬ reNineDigits r.BankID then [Violation.bankIDFormat r.Country r.BankID] else [])
      ++ (if r.BankIDCode ≠ "USABA" then [Violation.bankIDCodeWrong "USABA" r.BankIDCode] else [])
      ++ (if r.AccountNumber ≠ "" ∧ ¬ reUSAccountNumber r.AccountNumber then [Violation.accountNumberFormat r.Country r.AccountNumber] else [])
      ++ (if r.IBAN ≠ "" then [Violation.ibanPresent r.IBAN] else [])
      ++ (if r.BIC = "" then [Violation.bicMissing] else [])) := by
  refine ⟨?_, ?_, ?_, ?_, ?_, ?_, ?_, ?_, ?_, ?_, ?_, ?_, ?_, ?_, ?_, ?_⟩
  · intro h
    simp [ValidateResource, h, validateGB_eq]
  · intro h
    simp [ValidateResource, h, validateAU_eq]
  · intro h
    simp [ValidateResource, h, validateBE_eq]
  · intro h
    simp [ValidateResource, h, validateCA_eq]
  · intro h
    simp [ValidateResource, h, validateFR_eq]
  · intro h
    simp [ValidateResource, h, validateDE_eq]
  · intro h
    simp [ValidateResource, h, validateGR_eq]
  · intro h
    simp [ValidateResource, h, validateHK_eq]
  · intro h
    simp [ValidateResource, h, validateIT_eq]
  · intro h
    simp [ValidateResource, h, validateLU_eq]
  · intro h
    simp [ValidateResource, h, validateNL_eq]
  · intro h
    simp [ValidateResource, h, validatePL_eq]
  · intro h
    simp [ValidateResource, h, validatePT_eq]
  · intro h
    simp [ValidateResource, h, validateES_eq]
  · intro h
    simp [ValidateResource, h, validateCH_eq]
  · intro h
    simp [ValidateResource, h, validateUS_eq]

/-- Witness for C3: a GB record violating all four GB checks at once yields
the one error listing all four violations. -/
theorem claim3_collect_all_violations_witness :
    ValidateResource
      { resourceZero with
        Country := "GB", BankID := "12", BIC := "",
        BankIDCode := "X", AccountNumber := "1" } =
      [Violation.accountNumberFormat "GB" "1",
       Violation.bankIDCodeWrong "GBDSC" "X",
       Violation.bankIDFormat "GB" "12",
       Violation.bicMissing] :=
  ((claim3_collect_all_violations
    { resourceZero with
      Country := "GB", BankID := "12", BIC := "",
      BankIDCode := "X", AccountNumber := "1" }).1 rfl).trans (by decide)


/-- Claim C4: for every supported country, an empty optional field never
contributes a format violation of its own (the check is skipped), and every
non-empty optional field is checked against exactly that country's pattern:
the account number everywhere, the bank id for AU, CA and HK, and the bank
id code for CA and HK. -/
theorem claim4_optional_fields (r : Resource) :
    (r.Country ∈ supportedCountries → r.AccountNumber = "" →
      ∀ v ∈ ValidateResource r, isAccountNumberViolation v = false) ∧
    (r.Country ∈ (["AU", "CA", "HK"] : List String) → r.BankID = "" →
      ∀ v ∈ ValidateResource r, isBankIDFormatViolation v = false) ∧
    (r.Country ∈ (["CA", "HK"] : List String) → r.BankIDCode = "" →
      ∀ v ∈ ValidateResource r, isBankIDCodeOptionalViolation v = false) ∧
    (r.Country = "GB" → r.AccountNumber ≠ "" →
      (Violation.accountNumberFormat r.Country r.AccountNumber ∈
          ValidateResource r ↔ ¬ reEightDigits r.AccountNumber)) ∧
    (r.Country = "AU" → r.AccountNumber ≠ "" →
      (Violation.accountNumberFormat r.Country r.AccountNumber ∈
          ValidateResource r ↔ ¬ reAUAccountNumber r.AccountNumber)) ∧
    (r.Country = "BE" → r.AccountNumber ≠ "" →
      (Violation.accountNumberFormat r.Country r.AccountNumber ∈
          ValidateResource r ↔ ¬ reSevenDigits r.AccountNumber)) ∧
    (r.Country = "CA" → r.AccountNumber ≠ "" →
      (Violation.accountNumberFormat r.Country r.AccountNumber ∈
          ValidateResource r ↔ ¬ reCAAccountNumber r.AccountNumber)) ∧
    (r.Country = "FR" → r.AccountNumber ≠ "" →
      (Violation.accountNumberFormat r.Country r.AccountNumber ∈
          ValidateResource r ↔ ¬ reTenDigits r.AccountNumber)) ∧
    (r.Country = "DE" → r.AccountNumber ≠ "" →
      (Violation.accountNumberFormat r.Country r.AccountNumber ∈
          ValidateResource r ↔ ¬ reSevenDigits r.AccountNumber)) ∧
    (r.Country = "GR" → r.AccountNumber ≠ "" →
      (Violation.accountNumberFormat r.Country r.AccountNumber ∈
          ValidateResource r ↔ ¬ reSixteenDigits r.AccountNumber)) ∧
    (r.Country = "HK" → r.AccountNumber ≠ "" →
      (Violation.accountNumberFormat r.Country r.AccountNumber ∈
          ValidateResource r ↔ ¬ reHKAccountNumber r.AccountNumber)) ∧
    (r.Country = "IT" → r.AccountNumber ≠ "" →
      (Violation.itAccountNumberFormat r.AccountNumber ∈ ValidateResource r ↔
        ¬ reTwelveDigits r.AccountNumber)) ∧
    (r.Country = "LU" → r.AccountNumber ≠ "" →
      (Violation.accountNumberFormat r.Country r.AccountNumber ∈
          ValidateResource r ↔ ¬ reThirteenDigits r.AccountNumber)) ∧
    (r.Country = "NL" → r.AccountNumber ≠ "" →
      (Violation.accountNumberFormat r.Country r.AccountNumber ∈
          ValidateResource r ↔ ¬ reTenDigits r.AccountNumber)) ∧
    (r.Country = "PL" → r.AccountNumber ≠ "" →
      (Violation.accountNumberFormat r.Country r.AccountNumber ∈
          ValidateResource r ↔ ¬ reSixteenDigits r.AccountNumber)) ∧
    (r.Country = "PT" → r.AccountNumber ≠ "" →
      (Violation.accountNumberFormat r.Country r.AccountNumber ∈
          ValidateResource r ↔ ¬ reElevenDigits r.AccountNumber)) ∧
    (r.Country = "ES" → r.AccountNumber ≠ "" →
      (Violation.accountNumberFormat r.Country r.AccountNumber ∈
          ValidateResource r ↔ ¬ reTenDigits r.AccountNumber)) ∧
    (r.Country = "CH" → r.AccountNumber ≠ "" →
      (Violation.accountNumberFormat r.Country r.AccountNumber ∈
          ValidateResource r ↔ ¬ reTwelveDigits r.AccountNumber)) ∧
    (r.Country = "US" → r.AccountNumber ≠ "" →
      (Violation.accountNumberFormat r.Country r.AccountNumber ∈
          ValidateResource r ↔ ¬ reUSAccountNumber r.AccountNumber)) ∧
    (r.Country = "AU" → r.BankID ≠ "" →
      (Violation.bankIDFormat r.Country r.BankID ∈ ValidateResource r ↔
        ¬ reSixDigits r.BankID)) ∧
    (r.Country = "CA" → r.BankID ≠ "" →
      (Violation.bankIDFormat r.Country r.BankID ∈ ValidateResource r ↔
        ¬ reCARoutingNumber r.BankID)) ∧
    (r.Country = "HK" → r.BankID ≠ "" →
      (Violation.bankIDFormat r.Country r.BankID ∈ ValidateResource r ↔
        ¬ reThreeDigits r.BankID)) ∧
    (r.Country = "CA" → r.BankIDCode ≠ "" →
      (Violation.bankIDCodeOptionalWrong "CACPA" r.BankIDCode ∈
          ValidateResource r ↔ r.BankIDCode ≠ "CACPA")) ∧
    (r.Country = "HK" → r.BankIDCode ≠ "" →
      (Violation.bankIDCodeOptionalWrong "HKNCC" r.BankIDCode ∈
          ValidateResource r ↔ r.BankIDCode ≠ "HKNCC")) := by
  refine ⟨?_, ?_, ?_, ?_, ?_, ?_, ?_, ?_, ?_, ?_, ?_, ?_, ?_, ?_, ?_, ?_, ?_, ?_, ?_, ?_, ?_, ?_, ?_, ?_⟩
  · intro hmem hempty
    simp only [supportedCountries, List.mem_cons, List.not_mem_nil, or_false]
      at hmem
    rcases hmem with h|h|h|h|h|h|h|h|h|h|h|h|h|h|h|h <;>
      simp [ValidateResource, h, validateGB_eq, validateAU_eq, validateBE_eq,
        validateCA_eq, validateFR_eq, validateDE_eq, validateGR_eq,
        validateHK_eq, validateIT_eq, validateLU_eq, validateNL_eq,
        validatePL_eq, validatePT_eq, validateES_eq, validateCH_eq,
        validateUS_eq, hempty, forall_mem_iteSeg, List.forall_mem_append,
        isAccountNumberViolation] <;>
      aesop
  · intro hmem hempty
    simp only [List.mem_cons, List.not_mem_nil, or_false] at hmem
    rcases hmem with h|h|h <;>
      simp [ValidateResource, h, validateAU_eq, validateCA_eq, validateHK_eq,
        hempty, forall_mem_iteSeg, List.forall_mem_append,
        isBankIDFormatViolation] <;>
      aesop
  · intro hmem hempty
    simp only [List.mem_cons, List.not_mem_nil, or_false] at hmem
    rcases hmem with h|h <;>
      simp [ValidateResource, h, validateCA_eq, validateHK_eq, hempty,
        forall_mem_iteSeg, List.forall_mem_append,
        isBankIDCodeOptionalViolation] <;>
      aesop
  · intro h hne
    simp [ValidateResource, h, validateGB_eq, mem_iteSeg, List.mem_append, hne]
  · intro h hne
    simp [ValidateResource, h, validateAU_eq, mem_iteSeg, List.mem_append, hne]
  · intro h hne
    simp [ValidateResource, h, validateBE_eq, mem_iteSeg, List.mem_append, hne]
  · intro h hne
    simp [ValidateResource, h, validateCA_eq, mem_iteSeg, List.mem_append, hne]
  · intro h hne
    simp [ValidateResource, h, validateFR_eq, mem_iteSeg, List.mem_append, hne]
  · intro h hne
    simp [ValidateResource, h, validateDE_eq, mem_iteSeg, List.mem_append, hne]
  · intro h hne
    simp [ValidateResource, h, validateGR_eq, mem_iteSeg, List.mem_append, hne]
  · intro h hne
    simp [ValidateResource, h, validateHK_eq, mem_iteSeg, List.mem_append, hne]
  · intro h hne
    simp [ValidateResource, h, validateIT_eq, mem_iteSeg, List.mem_append, hne]
  · intro h hne
    simp [ValidateResource, h, validateLU_eq, mem_iteSeg, List.mem_append, hne]
  · intro h hne
    simp [ValidateResource, h, validateNL_eq, mem_iteSeg, List.mem_append, hne]
  · intro h hne
    simp [ValidateResource, h, validatePL_eq, mem_iteSeg, List.mem_append, hne]
  · intro h hne
    simp [ValidateResource, h, validatePT_eq, mem_iteSeg, List.mem_append, hne]
  · intro h hne
    simp [ValidateResource, h, validateES_eq, mem_iteSeg, List.mem_append, hne]
  · intro h hne
    simp [ValidateResource, h, validateCH_eq, mem_iteSeg, List.mem_append, hne]
  · intro h hne
    simp [ValidateResource, h, validateUS_eq, mem_iteSeg, List.mem_append, hne]
  · intro h hne
    simp [ValidateResource, h, validateAU_eq, mem_iteSeg, List.mem_append, hne]
  · intro h hne
    simp [ValidateResource, h, validateCA_eq, mem_iteSeg, List.mem_append, hne]
  · intro h hne
    simp [ValidateResource, h, validateHK_eq, mem_iteSeg, List.mem_append, hne]
  · intro h hne
    simp [ValidateResource, h, validateCA_eq, mem_iteSeg, List.mem_append, hne]
  · intro h hne
    simp [ValidateResource, h, validateHK_eq, mem_iteSeg, List.mem_append, hne]

/-- Witness for C4: an HK record with no account number validates with only
the missing-BIC complaint, which is not an account-number violation. -/
theorem claim4_optional_fields_witness :
    isAccountNumberViolation Violation.bicMissing = false :=
  (claim4_optional_fields { resourceZero with Country := "HK" }).1
    (by decide) rfl Violation.bicMissing (by decide)


/-- Claim C5: for every payload with fully populated attributes, decoding
the encoded byte stream succeeds and returns the original payload. -/
theorem claim5_roundtrip (p : Payload) (h : fullyPopulated p.Data.Attributes) :
    unmarshalPayload (some (marshalPayload p)) = .ok p := by
  have h1 : p.Data ≠ dataZero := by
    intro contra
    exact h.1 (by rw [contra]; rfl)
  have h2 : p.Data.Attributes ≠ resourceZero := by
    intro contra
    exact h.1 (by rw [contra]; rfl)
  simp [unmarshalPayload, decodePayloadJson_roundtrip, h1, h2]

/-- Witness for C5 at a concrete fully populated payload. -/
theorem claim5_roundtrip_witness :
    unmarshalPayload (some (marshalPayload pFull)) = .ok pFull :=
  claim5_roundtrip pFull (by unfold fullyPopulated; decide)

/-- Claim C6: a stream that is not well-formed JSON is rejected as malformed;
a stream that decodes is additionally rejected, with one of the two distinct
incomplete-payload errors, whenever the decoded data section or its nested
attributes section is entirely zero-valued; decoding the object
for the text \x7b"data":\x7b"id":"x"\x7d\x7d fails with the incomplete error
for empty attributes. -/
theorem claim6_incomplete_payload :
    (unmarshalPayload none = .error .malformed) ∧
    (∀ (j : Json) (p : Payload), decodePayloadJson j = .ok p →
      p.Data = dataZero ∨ p.Data.Attributes = resourceZero →
      unmarshalPayload (some j) = .error .dataEmpty ∨
        unmarshalPayload (some j) = .error .attributesEmpty) ∧
    (UnmarshalErr.dataEmpty.isIncomplete = true ∧
      UnmarshalErr.attributesEmpty.isIncomplete = true ∧
      UnmarshalErr.malformed.isIncomplete = false) ∧
    (unmarshalPayload (some (.obj [("data", .obj [("id", .str "x")])])) =
      .error .attributesEmpty) := by
  refine ⟨rfl, ?_, ⟨rfl, rfl, rfl⟩, rfl⟩
  intro j p hdec hemp
  by_cases hda : p.Data = dataZero
  · left
    simp [unmarshalPayload, hdec, hda]
  · right
    rcases hemp with hemp | hemp
    · exact absurd hemp hda
    · simp [unmarshalPayload, hdec, hda, hemp]

/-- Witness for C6: the incomplete-payload rejection applied to the decoded
form of the id-only stream. -/
theorem claim6_incomplete_payload_witness :
    unmarshalPayload (some (Json.obj [("data", Json.obj [("id", Json.str "x")])]))
        = .error .dataEmpty ∨
      unmarshalPayload (some (Json.obj [("data", Json.obj [("id", Json.str "x")])]))
        = .error .attributesEmpty :=
  claim6_incomplete_payload.2.1
    (Json.obj [("data", Json.obj [("id", Json.str "x")])])
    ⟨⟨"x", "", "", 0, "", "", resourceZero⟩, linksZero⟩ rfl (Or.inr rfl)

/-- Claim C7: decoding the collection stream for \x7b"data":[]\x7d succeeds with an
empty sequence; a decoded collection with an absent (nil) data section is
rejected; and a collection in which any element has entirely empty
attributes is rejected outright, with no partial result. -/
theorem claim7_collection_decode :
    (unmarshalMultiPayload (some (.obj [("data", .arr [])])) =
      .ok ⟨some [], linksZero⟩) ∧
    (∀ (j : Json) (mp : MultiPayload), decodeMultiPayloadJson j = .ok mp →
      mp.Data = none → unmarshalMultiPayload (some j) = .error .noData) ∧
    (∀ (j : Json) (mp : MultiPayload) (ds : List Data) (d : Data),
      decodeMultiPayloadJson j = .ok mp → mp.Data = some ds → d ∈ ds →
      d.Attributes = resourceZero →
      unmarshalMultiPayload (some j) = .error .elementAttributesEmpty) := by
  refine ⟨rfl, ?_, ?_⟩
  · intro j mp hdec hnone
    simp [unmarshalMultiPayload, hdec, hnone]
  · intro j mp ds d hdec hsome hmem hzero
    have hany : ds.any (fun d => d.Attributes = resourceZero) = true := by
      simp only [List.any_eq_true]
      exact ⟨d, hmem, by simp [hzero]⟩
    simp [unmarshalMultiPayload, hdec, hsome, hany]

/-- Witness for C7: a one-element collection whose element has empty
attributes is rejected whole. -/
theorem claim7_collection_decode_witness :
    unmarshalMultiPayload
      (some (Json.obj [("data", Json.arr [Json.obj [("id", Json.str "x")]])])) =
      .error .elementAttributesEmpty :=
  claim7_collection_decode.2.2
    (Json.obj [("data", Json.arr [Json.obj [("id", Json.str "x")]])])
    ⟨some [⟨"x", "", "", 0, "", "", resourceZero⟩], linksZero⟩
    [⟨"x", "", "", 0, "", "", resourceZero⟩]
    ⟨"x", "", "", 0, "", "", resourceZero⟩ rfl rfl (by decide) rfl


/-- Counterexample for C8: the Netherlands also requires a non-empty BIC.
A NL record satisfying every other NL rule (bank id empty, bank id code
empty, no account number) fails validation, and the missing BIC is the one
violation reported. -/
theorem claim8_counterexample :
    ValidateResource { resourceZero with Country := "NL" } =
        [Violation.bicMissing] ∧
      ValidateResource { resourceZero with Country := "NL" } ≠ [] := by
  constructor <;> decide

/-- Claim C8 as amended: a non-empty BIC is required exactly for GB, AU, CA,
HK, NL and US; for each of the other ten supported countries the BIC field
is never checked, so the validation verdict is unchanged by any BIC value. -/
theorem claim8_bic_amended (r : Resource) :
    (r.Country ∈ (["GB", "AU", "CA", "HK", "NL", "US"] : List String) →
      r.BIC = "" →
      Violation.bicMissing ∈ ValidateResource r ∧ ValidateResource r ≠ []) ∧
    (r.Country ∈ (["BE", "FR", "DE", "GR", "IT", "LU", "PL", "PT", "ES", "CH"] :
        List String) →
      (∀ v ∈ ValidateResource r, v ≠ Violation.bicMissing) ∧
      (∀ b, ValidateResource { r with BIC := b } = ValidateResource r)) := by
  constructor
  · intro hmem hbic
    simp only [List.mem_cons, List.not_mem_nil, or_false] at hmem
    rcases hmem with h|h|h|h|h|h <;>
      simp [ValidateResource, h, validateGB_eq, validateAU_eq, validateCA_eq,
        validateHK_eq, validateNL_eq, validateUS_eq, hbic, mem_iteSeg,
        List.mem_append, List.append_eq_nil, iteSeg_nil]
  · intro hmem
    simp only [List.mem_cons, List.not_mem_nil, or_false] at hmem
    constructor
    · rcases hmem with h|h|h|h|h|h|h|h|h|h <;>
        simp [ValidateResource, h, validateBE_eq, validateFR_eq, validateDE_eq,
          validateGR_eq, validateIT_eq, validateLU_eq, validatePL_eq,
          validatePT_eq, validateES_eq, validateCH_eq, forall_mem_iteSeg,
          List.forall_mem_append] <;> aesop
    · intro b
      rcases hmem with h|h|h|h|h|h|h|h|h|h <;>
        simp [ValidateResource, h, validateBE_eq, validateFR_eq, validateDE_eq,
          validateGR_eq, validateIT_eq, validateLU_eq, validatePL_eq,
          validatePT_eq, validateES_eq, validateCH_eq]

/-- Witness for the amended C8: a GB record with empty BIC reports the
missing BIC. -/
theorem claim8_bic_amended_witness :
    Violation.bicMissing ∈ ValidateResource { resourceZero with Country := "GB" } :=
  ((claim8_bic_amended { resourceZero with Country := "GB" }).1
    (by decide) rfl).1

/-- Counterexample for C9: `alternative_names` carries the `omitempty` tag
but is a fixed-size `[3]string` array, which `encoding/json` never treats as
empty, so the key is rendered even when all three entries are empty. -/
theorem claim9_counterexample :
    pAlt.Data.Attributes.AlternativeNames = ⟨"", "", ""⟩ ∧
    "alternative_names" ∈ Json.keys (attributesOf (marshalPayload pAlt)) :=
  ⟨rfl, by decide⟩

/-- Claim C9 as amended: the rendering is deterministic and field for field;
each empty optional scalar field (strings and boolean flags) is omitted from
the rendered attributes object, but `alternative_names`, despite its
`omitempty` tag, is always rendered because a fixed-size array is never
empty. -/
theorem claim9_omitempty_amended (p : Payload) :
    (attributesOf (marshalPayload p) = encodeResource p.Data.Attributes) ∧
    ("alternative_names" ∈ Json.keys (encodeResource p.Data.Attributes)) ∧
    ("base_currency" ∈ Json.keys (encodeResource p.Data.Attributes) ↔
      p.Data.Attributes.BaseCurrency ≠ "") ∧
    ("bank_id" ∈ Json.keys (encodeResource p.Data.Attributes) ↔
      p.Data.Attributes.BankID ≠ "") ∧
    ("bank_id_code" ∈ Json.keys (encodeResource p.Data.Attributes) ↔
      p.Data.Attributes.BankIDCode ≠ "") ∧
    ("account_number" ∈ Json.keys (encodeResource p.Data.Attributes) ↔
      p.Data.Attributes.AccountNumber ≠ "") ∧
    ("bic" ∈ Json.keys (encodeResource p.Data.Attributes) ↔
      p.Data.Attributes.BIC ≠ "") ∧
    ("iban" ∈ Json.keys (encodeResource p.Data.Attributes) ↔
      p.Data.Attributes.IBAN ≠ "") ∧
    ("customer_id" ∈ Json.keys (encodeResource p.Data.Attributes) ↔
      p.Data.Attributes.CustomerID ≠ "") ∧
    ("account_classification" ∈ Json.keys (encodeResource p.Data.Attributes) ↔
      p.Data.Attributes.AccountClassification ≠ "") ∧
    ("secondary_identification" ∈ Json.keys (encodeResource p.Data.Attributes) ↔
      p.Data.Attributes.SecondaryIdentification ≠ "") ∧
    ("joint_account" ∈ Json.keys (encodeResource p.Data.Attributes) ↔
      p.Data.Attributes.JointAccount = true) ∧
    ("account_matching_opt_out" ∈ Json.keys (encodeResource p.Data.Attributes) ↔
      p.Data.Attributes.AccountMatchingOptOut = true) ∧
    ("switched" ∈ Json.keys (encodeResource p.Data.Attributes) ↔
      p.Data.Attributes.Switched = true) := by
  refine ⟨rfl, ?_, ?_, ?_, ?_, ?_, ?_, ?_, ?_, ?_, ?_, ?_, ?_, ?_⟩ <;>
    simp [Json.keys, Json.objFields, encodeResource, List.map_append,
      keys_omitemptyStr, keys_omitemptyBool, List.mem_append,
      mem_ite_nil_single, mem_ite_single_nil]

/-- Witness for the amended C9 at the concrete payload with empty optional
fields. -/
theorem claim9_omitempty_amended_witness :
    "alternative_names" ∈ Json.keys (encodeResource pAlt.Data.Attributes) :=
  (claim9_omitempty_amended pAlt).2.1

/-- Claim C10: the validation verdict depends only on the country, bank id,
bank id code, BIC, account number and IBAN fields; two records agreeing on
those six get the same verdict regardless of every other field. -/
theorem claim10_noninterference (r1 r2 : Resource)
    (hC : r1.Country = r2.Country) (hB : r1.BankID = r2.BankID)
    (hBC : r1.BankIDCode = r2.BankIDCode) (hBIC : r1.BIC = r2.BIC)
    (hA : r1.AccountNumber = r2.AccountNumber) (hI : r1.IBAN = r2.IBAN) :
    (ValidateResource r1 = [] ↔ ValidateResource r2 = []) := by
  rw [ValidateResource_closed r1, ValidateResource_closed r2,
    hC, hB, hBC, hBIC, hA, hI]

/-- Witness for C10: two GB records differing only in names, flags and
status get the same verdict. -/
theorem claim10_noninterference_witness :
    (ValidateResource
        { resourceZero with
          Country := "GB", BankID := "123456", BIC := "b",
          BankIDCode := "GBDSC" } = [] ↔
      ValidateResource
        { resourceZero with
          Country := "GB", BankID := "123456", BIC := "b",
          BankIDCode := "GBDSC", Status := "x", JointAccount := true,
          SecondaryIdentification := "s" } = []) :=
  claim10_noninterference _ _ rfl rfl rfl rfl rfl rfl

end Form3
